import Mathlib

/-!
# Verification of the VistulaOS installer engine

Shallow embedding of the `vistula-installer` core modules:

* `vistula_installer/core/executor.py` (`CommandExecutor.run`)
* `vistula_installer/core/installer.py` (`_disk_prefix`, `_blkid_export`,
  `_fstab_ident`, `_fstype`, `build_fstab_content`, `_write_fstab`,
  `InstallerEngine.validate_ready`, `InstallerEngine.run_install`)
* `vistula_installer/core/software.py` (`SoftwareSelection`,
  `selection_from_config`, `arch_packages_for_selection`,
  `flatpak_appids_for_selection`)
* `vistula_installer/core/config.py` (`InstallConfig`)

Python's side effects (subprocess execution, progress callbacks, file
writes) are modelled by a state monad over an explicit effect `Trace`,
with Python exceptions modelled by an `Except`-style result.  The outside
world (subprocess results, file existence, file contents, `os.geteuid`,
`uuid4`) is a parameter `World` of every effectful function.
-/

namespace Vistula

/-! ## Character/string helpers mirroring the Python string operations -/

/-- The single-quote character, written via its code point. -/
def sqc : Char := Char.ofNat 39

/-- Characters `shlex.quote` considers safe: ASCII alphanumerics,
underscore, and `@ % + = : , . slash -` (the complement of Python's
`_find_unsafe` regex). -/
def safeChar (c : Char) : Bool :=
  ('a' ≤ c && c ≤ 'z') || ('A' ≤ c && c ≤ 'Z') || ('0' ≤ c && c ≤ '9') ||
  c = '_' || c = '@' || c = '%' || c = '+' || c = '=' || c = ':' ||
  c = ',' || c = '.' || c = '/' || c = '-'

/-- `s.replace("'", "'\"'\"'")` over a character list. -/
def escQuote : List Char → List Char
  | [] => []
  | c :: cs =>
    if c = sqc then sqc :: '"' :: sqc :: '"' :: sqc :: escQuote cs
    else c :: escQuote cs

/-- `shlex.quote`: empty strings become `''`; strings of safe characters
are returned unchanged; anything else is wrapped in single quotes with
embedded single quotes escaped. -/
def shQuote (s : String) : String :=
  if s.data = [] then String.mk [sqc, sqc]
  else if s.data.all safeChar then s
  else String.mk ([sqc] ++ escQuote s.data ++ [sqc])

/-- `" ".join(...)`-style joining. -/
def joinSep (sep : String) : List String → String
  | [] => ""
  | [x] => x
  | x :: y :: xs => x ++ sep ++ joinSep sep (y :: xs)

/-- The shell-safely-quoted command line the executor logs:
`" ".join(shlex.quote(a) for a in args)`. -/
def quotedCmd (args : List String) : String :=
  joinSep " " (args.map shQuote)

/-- Does `hay` start with `sub`? -/
def startsWithL : List Char → List Char → Bool
  | _, [] => true
  | [], _ :: _ => false
  | c :: cs, d :: ds => c = d && startsWithL cs ds

/-- Substring containment over character lists (Python's `sub in hay`). -/
def hasSubL (hay sub : List Char) : Bool :=
  match hay with
  | [] => startsWithL [] sub
  | _ :: tl => startsWithL hay sub || hasSubL tl sub

/-- Python's `sub in s` substring test for strings. -/
def strContains (s sub : String) : Bool := hasSubL s.data sub.data

/-- Split a character list on a separator character (like
`str.split(sep)`); a trailing separator yields a trailing empty piece. -/
def splitChar (c : Char) : List Char → List (List Char)
  | [] => [[]]
  | x :: xs =>
    match splitChar c xs with
    | [] => [[]]
    | h :: t => if x = c then [] :: h :: t else (x :: h) :: t

/-- Split into lines keeping the newline terminators, like Python's
`str.splitlines(True)` restricted to `\n` terminators. -/
def splitAfterNl : List Char → List (List Char)
  | [] => []
  | c :: cs =>
    match splitAfterNl cs with
    | [] => [[c]]
    | h :: t => if c = '\n' then [c] :: h :: t else (c :: h) :: t

/-- `str.lstrip()`. -/
def lstripL (cs : List Char) : List Char := cs.dropWhile Char.isWhitespace

/-- `str.strip()`. -/
def trimL (cs : List Char) : List Char :=
  ((cs.dropWhile Char.isWhitespace).reverse.dropWhile Char.isWhitespace).reverse

/-- `str.strip()` for strings. -/
def pyStrip (s : String) : String := String.mk (trimL s.data)

/-- `line.split("=", 1)`: `none` when the line has no `=`, otherwise the
text before the first `=` and the rest after it. -/
def splitEq1 : List Char → Option (List Char × List Char)
  | [] => none
  | c :: cs =>
    if c = '=' then some ([], cs)
    else (splitEq1 cs).map (fun p => (c :: p.1, p.2))

/-! ## Core data types -/

/-- `executor.CommandResult` (frozen dataclass). -/
structure CommandResult where
  returncode : Int
  stdout : String
  stderr : String
deriving DecidableEq, Repr

/-- Python exceptions raised by the embedded code.  `runtimeError` is the
`RuntimeError` the executor raises on a checked non-zero exit (the
"command failure"); `nameError` models an unbound-local reference
(`UnboundLocalError`, a `NameError` subclass). -/
inductive PyError where
  | valueError (msg : String)
  | permissionError (msg : String)
  | runtimeError (msg : String)
  | nameError (var : String)
deriving DecidableEq, Repr

/-- Filesystem side effects performed directly through `pathlib`
(not through the executor). -/
inductive FsOp where
  | mkdirp (path : String)
  | write (path : String) (content : String)
  | chmod (path : String) (mode : Nat)
  | symlink (target : String) (link : String)
  | unlink (path : String)
deriving DecidableEq, Repr

/-- The observable effects of a run:
* `events`   – progress events `(percent, label)` sent to the callback;
* `executed` – argv of every subprocess actually spawned;
* `issued`   – argv of every command handed to the executor, whether
  spawned or only dry-run simulated (instrumentation superset of
  `executed`);
* `logs`     – the executor's log lines (`[DRY-RUN] …` / `$ …`);
* `fs`       – direct filesystem operations. -/
structure Trace where
  events : List (Nat × String)
  executed : List (List String)
  issued : List (List String)
  logs : List String
  fs : List FsOp
deriving DecidableEq, Repr

/-- The empty effect trace at the start of a run. -/
def t0 : Trace := ⟨[], [], [], [], []⟩

/-- The ambient world: subprocess behaviour (`argv`, `cwd`, stdin text ↦
result), file existence, file contents, effective uid, and the value of
`uuid4()`. -/
structure World where
  exec : List String → Option String → Option String → CommandResult
  fileExists : String → Bool
  readFile : String → String
  euid : Nat
  freshUuid : String

/-- State-and-exception monad over the effect trace: a Python call either
returns a value or raises, and in both cases the effects performed so far
remain in the trace. -/
def M (α : Type) : Type := Trace → Except PyError α × Trace

/-- Return. -/
def mpure {α : Type} (a : α) : M α := fun t => (Except.ok a, t)

/-- Sequencing; an exception skips the continuation. -/
def mbind {α β : Type} (x : M α) (f : α → M β) : M β := fun t =>
  match x t with
  | (Except.ok a, t') => f a t'
  | (Except.error e, t') => (Except.error e, t')

/-- `raise`. -/
def mthrow {α : Type} (e : PyError) : M α := fun t => (Except.error e, t)

/-- Lift a pure `Except` computation (used for `validate_ready`). -/
def mOfExcept {α : Type} (x : Except PyError α) : M α := fun t => (x, t)

/-- `if opt is not None: body` over an optional value. -/
def mWhenSome {α : Type} (o : Option α) (f : α → M Unit) : M Unit :=
  match o with
  | some a => f a
  | none => mpure ()

/-- `match opt with ...` over an optional value producing a result. -/
def mCaseOpt {α β : Type} (o : Option α) (z : M β) (f : α → M β) : M β :=
  match o with
  | none => z
  | some a => f a

/-- `for x in xs: body`. -/
def mForList {α : Type} (f : α → M Unit) : List α → M Unit
  | [] => mpure ()
  | x :: xs => mbind (f x) (fun _ => mForList f xs)

/-- Record a direct filesystem operation.  (The trace is destructured
and rebuilt field by field so that kernel reduction stays linear.) -/
def fsOp (op : FsOp) : M Unit := fun t =>
  match t with
  | ⟨ev, ex, is, lg, fs⟩ => (Except.ok (), ⟨ev, ex, is, lg, fs ++ [op]⟩)

/-- `step(pct, msg)` from `run_install`: report progress to the callback
before executing the step. -/
def stepE (pct : Nat) (msg : String) : M Unit := fun t =>
  match t with
  | ⟨ev, ex, is, lg, fs⟩ => (Except.ok (), ⟨ev ++ [(pct, msg)], ex, is, lg, fs⟩)

/-- `CommandExecutor.run` (executor.py lines 27–52).  In dry-run mode
without `allow_in_dry_run` the command is only logged and a synthetic
success is returned; otherwise the process is spawned and, when `check`
is set and the return code is non-zero, a `RuntimeError` carrying the
return code and the quoted command line is raised. -/
def exeRun (w : World) (dryRun : Bool) (args : List String) (check : Bool)
    (cwd : Option String) (allowInDryRun : Bool) (inputText : Option String) :
    M CommandResult := fun t =>
  match t with
  | ⟨ev, ex, is, lg, fs⟩ =>
    if dryRun && !allowInDryRun then
      (Except.ok ⟨0, "", ""⟩,
        ⟨ev, ex, is ++ [args], lg ++ ["[DRY-RUN] " ++ quotedCmd args], fs⟩)
    else
      let cp := w.exec args cwd inputText
      if check && cp.returncode != 0 then
        (Except.error (PyError.runtimeError
          ("Command failed (" ++ toString cp.returncode ++ "): " ++ quotedCmd args)),
         ⟨ev, ex ++ [args], is ++ [args], lg ++ ["$ " ++ quotedCmd args], fs⟩)
      else
        (Except.ok cp,
         ⟨ev, ex ++ [args], is ++ [args], lg ++ ["$ " ++ quotedCmd args], fs⟩)

/-- An executor call whose result is discarded (the common statement form
`self._executor.run([...])`; `cwd` is never passed by the engine). -/
def doCmd (w : World) (dryRun : Bool) (args : List String) (check : Bool)
    (allowInDryRun : Bool) (inputText : Option String) : M Unit :=
  mbind (exeRun w dryRun args check none allowInDryRun inputText) (fun _ => mpure ())

end Vistula

namespace Vistula

/-! ## blkid metadata, fstab identifiers (installer.py lines 100–127) -/

/-- Parse `blkid -o export` output: one `KEY=VALUE` per line; lines
without `=` are skipped; keys and values are stripped; later occurrences
of a key overwrite earlier ones (Python dict assignment). -/
def parseExport (s : String) : List (String × String) :=
  (splitChar '\n' s.data).foldl (fun acc line =>
    match splitEq1 line with
    | none => acc
    | some kv => acc ++ [(String.mk (trimL kv.1), String.mk (trimL kv.2))]) []

/-- Dict lookup with last-wins semantics; missing/empty collapse to `""`
(both are falsy at every use site). -/
def dictGet (d : List (String × String)) (k : String) : String :=
  d.foldl (fun acc kv => if kv.1 = k then kv.2 else acc) ""

/-- The pure value `_blkid_export(executor, dev)` computes under world
`w` (empty dict on non-zero exit). -/
def blkidDict (w : World) (dev : String) : List (String × String) :=
  let res := w.exec ["blkid", "-o", "export", dev] none none
  if res.returncode != 0 then [] else parseExport res.stdout

/-- The pure value of `_fstab_ident`: prefer `PARTUUID`, fall back to
`UUID`, `none` when neither is present (or empty). -/
def fstabIdent (w : World) (dev : String) : Option (String × String) :=
  let info := blkidDict w dev
  let partuuid := dictGet info "PARTUUID"
  let uuid := dictGet info "UUID"
  if partuuid ≠ "" then some ("PARTUUID", partuuid)
  else if uuid ≠ "" then some ("UUID", uuid)
  else none

/-- The pure value of `_fstype`: the `TYPE` key, or `fallback` when
missing or empty (`info.get("TYPE") or fallback`). -/
def fstypeOf (w : World) (dev : String) (fallback : String) : String :=
  let ty := dictGet (blkidDict w dev) "TYPE"
  if ty ≠ "" then ty else fallback

/-- The pure value of `devref(dev)`: the stable identifier rendered as
`KIND=value`, or the raw device path when unresolved. -/
def devrefVal (w : World) (dev : String) : String :=
  (fstabIdent w dev).elim dev (fun kv => kv.1 ++ "=" ++ kv.2)

/-- `_blkid_export` as the engine runs it: a `blkid -o export` call with
`check=False, allow_in_dry_run=True`, parsed into a dict. -/
def blkidExportM (w : World) (dryRun : Bool) (dev : String) :
    M (List (String × String)) :=
  mbind (exeRun w dryRun ["blkid", "-o", "export", dev] false none true none)
    (fun res =>
      if res.returncode != 0 then mpure []
      else mpure (parseExport res.stdout))

/-- `_fstab_ident(executor, dev)`. -/
def fstabIdentM (w : World) (dryRun : Bool) (dev : String) :
    M (Option (String × String)) :=
  mbind (blkidExportM w dryRun dev) (fun info =>
    let partuuid := dictGet info "PARTUUID"
    let uuid := dictGet info "UUID"
    if partuuid ≠ "" then mpure (some ("PARTUUID", partuuid))
    else if uuid ≠ "" then mpure (some ("UUID", uuid))
    else mpure none)

/-- `_fstype(executor, dev, fallback)`. -/
def fstypeM (w : World) (dryRun : Bool) (dev : String) (fallback : String) :
    M String :=
  mbind (blkidExportM w dryRun dev) (fun info =>
    let ty := dictGet info "TYPE"
    if ty ≠ "" then mpure ty else mpure fallback)

/-- `devref(dev)` from `build_fstab_content`: the stable identifier as
`KIND=value`, or the raw device path when unresolved. -/
def devrefM (w : World) (dryRun : Bool) (dev : String) : M String :=
  mbind (fstabIdentM w dryRun dev) (fun ident =>
    mCaseOpt ident (mpure dev) (fun kv => mpure (kv.1 ++ "=" ++ kv.2)))

/-- `build_fstab_content` (installer.py lines 129–164), preserving the
source's evaluation order (root fstype, root devref, then per-partition
fstype/devref). -/
def buildFstabContentM (w : World) (dryRun : Bool) (rootPart : String)
    (efiPart homePart swapPart : Option String) : M String :=
  mbind (fstypeM w dryRun rootPart "ext4") (fun rootFs =>
  mbind (devrefM w dryRun rootPart) (fun rootRef =>
  mbind (mCaseOpt efiPart (mpure "") (fun e =>
           mbind (fstypeM w dryRun e "vfat") (fun efiFs =>
           mbind (devrefM w dryRun e) (fun efiRef =>
           mpure (efiRef ++ " /boot/efi " ++ efiFs ++ " umask=0077 0 1\n"))))) (fun efiLine =>
  mbind (mCaseOpt homePart (mpure "") (fun h =>
           mbind (fstypeM w dryRun h "ext4") (fun homeFs =>
           mbind (devrefM w dryRun h) (fun homeRef =>
           mpure (homeRef ++ " /home " ++ homeFs ++ " defaults 0 2\n"))))) (fun homeLine =>
  mbind (mCaseOpt swapPart (mpure "") (fun s =>
           mbind (devrefM w dryRun s) (fun swapRef =>
           mpure (swapRef ++ " none swap sw 0 0\n")))) (fun swapLine =>
  mpure ((rootRef ++ " / " ++ rootFs ++ " defaults 0 1\n")
          ++ efiLine ++ homeLine ++ swapLine))))))

/-- The mount table as §4.4 of the spec words it, parametrized by a
resolver and a filesystem-type oracle: one line per provided partition,
root/efi/home/swap in that order, `<ref>` being `KIND=value` or the raw
path.  Spec-side definition for the refinement proof of C3. -/
def specMountTable (resolve : String → Option (String × String))
    (ftype : String → String → String) (rootPart : String)
    (efiPart homePart swapPart : Option String) : String :=
  let ref := fun dev => (resolve dev).elim dev (fun kv => kv.1 ++ "=" ++ kv.2)
  (ref rootPart ++ " / " ++ ftype rootPart "ext4" ++ " defaults 0 1\n")
  ++ efiPart.elim "" (fun e =>
       ref e ++ " /boot/efi " ++ ftype e "vfat" ++ " umask=0077 0 1\n")
  ++ homePart.elim "" (fun h =>
       ref h ++ " /home " ++ ftype h "ext4" ++ " defaults 0 2\n")
  ++ swapPart.elim "" (fun s => ref s ++ " none swap sw 0 0\n")

end Vistula

namespace Vistula

/-! ## InstallConfig (config.py) and the software planner (software.py) -/

/-- `config.InstallConfig` (the fields the engine and planner read;
`target_disk` is `Optional[str]`, the partition fields are strings with
`""` meaning "not chosen"). -/
structure InstallConfig where
  target_disk : Option String
  erase_disk : Bool
  root_partition : String
  efi_partition : String
  home_partition : String
  swap_partition : String
  format_root : Bool
  format_efi : Bool
  format_home : Bool
  format_swap : Bool
  hostname : String
  username : String
  password : String
  timezone : String
  keyboard_layout : String
  locale : String
  generate_all_locales_arch : Bool
  enable_networkmanager : Bool
  wifi_ssid : String
  wifi_password : String
  profile_gamers : Bool
  profile_creators : Bool
  profile_accountants : Bool
  profile_developers : Bool
  driver_nvidia : Bool
  gamers_steam : Bool
  gamers_lutris : Bool
  gamers_wine : Bool
  gamers_mangohud : Bool
  gamers_gamemode : Bool
  creators_gimp : Bool
  creators_inkscape : Bool
  creators_blender : Bool
  creators_kdenlive : Bool
  creators_audacity : Bool
  accountants_libreoffice : Bool
  accountants_gnucash : Bool
  developers_git : Bool
  developers_base_devel : Bool
  developers_python : Bool
  developers_nodejs : Bool
  developers_vscode : Bool
  flatpak_apps : List String
deriving DecidableEq, Repr

/-- The dataclass defaults of `InstallConfig` (config.py). -/
def cfgBase : InstallConfig where
  target_disk := none
  erase_disk := false
  root_partition := ""
  efi_partition := ""
  home_partition := ""
  swap_partition := ""
  format_root := true
  format_efi := false
  format_home := false
  format_swap := false
  hostname := "vistula"
  username := "user"
  password := ""
  timezone := "Europe/Warsaw"
  keyboard_layout := "pl"
  locale := "pl_PL.UTF-8"
  generate_all_locales_arch := false
  enable_networkmanager := true
  wifi_ssid := ""
  wifi_password := ""
  profile_gamers := false
  profile_creators := false
  profile_accountants := false
  profile_developers := false
  driver_nvidia := false
  gamers_steam := false
  gamers_lutris := false
  gamers_wine := false
  gamers_mangohud := false
  gamers_gamemode := false
  creators_gimp := false
  creators_inkscape := false
  creators_blender := false
  creators_kdenlive := false
  creators_audacity := false
  accountants_libreoffice := false
  accountants_gnucash := false
  developers_git := false
  developers_base_devel := false
  developers_python := false
  developers_nodejs := false
  developers_vscode := false
  flatpak_apps := []

/-- `software.SoftwareSelection` (frozen dataclass). -/
structure SoftwareSelection where
  gamers : Bool
  creators : Bool
  accountants : Bool
  developers : Bool
  nvidia_driver : Bool
  gamers_steam : Bool
  gamers_lutris : Bool
  gamers_wine : Bool
  gamers_mangohud : Bool
  gamers_gamemode : Bool
  creators_gimp : Bool
  creators_inkscape : Bool
  creators_blender : Bool
  creators_kdenlive : Bool
  creators_audacity : Bool
  accountants_libreoffice : Bool
  accountants_gnucash : Bool
  developers_git : Bool
  developers_base_devel : Bool
  developers_python : Bool
  developers_nodejs : Bool
  developers_vscode : Bool
deriving DecidableEq, Repr

/-- `software.selection_from_config`. -/
def selectionFromConfig (install : InstallConfig) : SoftwareSelection where
  gamers := install.profile_gamers
  creators := install.profile_creators
  accountants := install.profile_accountants
  developers := install.profile_developers
  nvidia_driver := install.driver_nvidia
  gamers_steam := install.gamers_steam
  gamers_lutris := install.gamers_lutris
  gamers_wine := install.gamers_wine
  gamers_mangohud := install.gamers_mangohud
  gamers_gamemode := install.gamers_gamemode
  creators_gimp := install.creators_gimp
  creators_inkscape := install.creators_inkscape
  creators_blender := install.creators_blender
  creators_kdenlive := install.creators_kdenlive
  creators_audacity := install.creators_audacity
  accountants_libreoffice := install.accountants_libreoffice
  accountants_gnucash := install.accountants_gnucash
  developers_git := install.developers_git
  developers_base_devel := install.developers_base_devel
  developers_python := install.developers_python
  developers_nodejs := install.developers_nodejs
  developers_vscode := install.developers_vscode

/-- The "deduplicate, stable order" loop shared by both planner functions
and by the flatpak list in `run_install`: keep the first occurrence of
each element, in order (`seen` accumulates the elements already kept). -/
def dedupFirst (seen : List String) : List String → List String
  | [] => []
  | x :: xs =>
    if x ∈ seen then dedupFirst seen xs
    else x :: dedupFirst (x :: seen) xs

/-- `software.arch_packages_for_selection` (software.py lines 68–110).
The creators and accountants bundles deliberately contribute no native
packages (the source prefers Flatpak for their GUI apps). -/
def archPackagesForSelection (sel : SoftwareSelection) : List String :=
  dedupFirst []
    ((if sel.nvidia_driver then ["nvidia", "nvidia-utils", "lib32-nvidia-utils"] else [])
     ++ (if sel.gamers then
           (if sel.gamers_wine then ["wine", "winetricks"] else [])
           ++ (if sel.gamers_mangohud then ["mangohud"] else [])
           ++ (if sel.gamers_gamemode then ["gamemode"] else [])
         else [])
     ++ (if sel.developers then
           (if sel.developers_git then ["git"] else [])
           ++ (if sel.developers_base_devel then ["base-devel"] else [])
           ++ (if sel.developers_python then ["python"] else [])
           ++ (if sel.developers_nodejs then ["nodejs", "npm"] else [])
         else []))

/-- `software.flatpak_appids_for_selection` (software.py lines 113–152). -/
def flatpakAppidsForSelection (sel : SoftwareSelection) : List String :=
  dedupFirst []
    ((if sel.gamers then
        (if sel.gamers_steam then ["com.valvesoftware.Steam"] else [])
        ++ (if sel.gamers_lutris then ["net.lutris.Lutris"] else [])
      else [])
     ++ (if sel.creators then
           (if sel.creators_gimp then ["org.gimp.GIMP"] else [])
           ++ (if sel.creators_inkscape then ["org.inkscape.Inkscape"] else [])
           ++ (if sel.creators_blender then ["org.blender.Blender"] else [])
           ++ (if sel.creators_kdenlive then ["org.kde.kdenlive"] else [])
           ++ (if sel.creators_audacity then ["org.audacityteam.Audacity"] else [])
         else [])
     ++ (if sel.accountants then
           (if sel.accountants_libreoffice then ["org.libreoffice.LibreOffice"] else [])
           ++ (if sel.accountants_gnucash then ["org.gnucash.GnuCash"] else [])
         else [])
     ++ (if sel.developers then
           (if sel.developers_vscode then ["com.visualstudio.code"] else [])
         else []))

/-- A selection with every sub-flag of an unset parent bundle cleared;
used to state that orphan sub-flags contribute nothing. -/
def clearOrphanFlags (sel : SoftwareSelection) : SoftwareSelection :=
  { sel with
    gamers_steam := sel.gamers && sel.gamers_steam
    gamers_lutris := sel.gamers && sel.gamers_lutris
    gamers_wine := sel.gamers && sel.gamers_wine
    gamers_mangohud := sel.gamers && sel.gamers_mangohud
    gamers_gamemode := sel.gamers && sel.gamers_gamemode
    creators_gimp := sel.creators && sel.creators_gimp
    creators_inkscape := sel.creators && sel.creators_inkscape
    creators_blender := sel.creators && sel.creators_blender
    creators_kdenlive := sel.creators && sel.creators_kdenlive
    creators_audacity := sel.creators && sel.creators_audacity
    accountants_libreoffice := sel.accountants && sel.accountants_libreoffice
    accountants_gnucash := sel.accountants && sel.accountants_gnucash
    developers_git := sel.developers && sel.developers_git
    developers_base_devel := sel.developers && sel.developers_base_devel
    developers_python := sel.developers && sel.developers_python
    developers_nodejs := sel.developers && sel.developers_nodejs
    developers_vscode := sel.developers && sel.developers_vscode }

/-! ## Partition naming (installer.py lines 91–97 and 242–248) -/

/-- `_disk_prefix(disk)`: append `p` for `nvme`/`mmcblk` disks. -/
def diskPfx (disk : String) : String :=
  if strContains disk "nvme" || strContains disk "mmcblk" then disk ++ "p"
  else disk

/-- The spec's `derivePartitionName(disk, index)`: the name of partition
`n` of `disk` under the repository's naming rule. -/
def derivePartitionName (disk : String) (n : Nat) : String :=
  diskPfx disk ++ toString n

/-- The inline partition-node prediction of the erase-disk flow
(installer.py lines 242–248): `(efi_part, root_part)`. -/
def erasePartDevs (disk : String) : String × String :=
  if strContains disk "nvme" || strContains disk "mmcblk" then
    (disk ++ "p1", disk ++ "p2")
  else (disk ++ "1", disk ++ "2")

/-! ## validate_ready (installer.py lines 197–207) -/

/-- `InstallerEngine.validate_ready`, with each `raise ValueError`
returned as an error.  Python truthiness: `not cfg.target_disk` is true
for both `None` and `""`. -/
def validateReady (w : World) (cfg : InstallConfig) : Except PyError Unit :=
  if cfg.target_disk.getD "" = "" then
    Except.error (PyError.valueError "No target disk selected")
  else if !cfg.erase_disk && cfg.root_partition = "" then
    Except.error (PyError.valueError "No root partition selected")
  else if !cfg.erase_disk && w.fileExists "/sys/firmware/efi"
          && cfg.efi_partition = "" then
    Except.error (PyError.valueError "EFI partition is required for UEFI systems")
  else if cfg.password = "" then
    Except.error (PyError.valueError "Password is required")
  else Except.ok ()

/-! ## File contents written by run_install -/

/-- The `/etc/hosts` content (installer.py line 322). -/
def hostsContent (hostname : String) : String :=
  "127.0.0.1\tlocalhost\n127.0.1.1\t" ++ hostname
    ++ "\n\n::1\tlocalhost ip6-localhost ip6-loopback\n"

/-- The keyboard configuration content (installer.py line 348). -/
def keyboardContent (kbd : String) : String :=
  "XKBLAYOUT=\"" ++ kbd ++ "\"\nXKBMODEL=\"pc105\"\nXKBVARIANT=\"\"\nXKBOPTIONS=\"\"\nBACKSPACE=\"guess\"\n"

/-- The rewritten `locale.gen` (installer.py lines 373–388): uncomment
every UTF-8 line when generating all locales, otherwise only commented
lines containing the selected locale. -/
def localeGenRewrite (content : String) (genAll : Bool) (locale : String) : String :=
  let ls := splitAfterNl content.data
  String.mk (List.foldr (fun line acc =>
    (if genAll then
       if startsWithL (lstripL line) ['#'] && hasSubL line ".UTF-8".data then
         (lstripL line).tail
       else line
     else
       if startsWithL (lstripL line) ['#'] && hasSubL (lstripL line) locale.data then
         (lstripL line).tail
       else line) ++ acc) [] ls)

/-- The NetworkManager Wi-Fi profile content (installer.py lines 407–427). -/
def wifiProfile (ssid uuid psk : String) : String :=
  "[connection]\nid=" ++ ssid ++ "\nuuid=" ++ uuid
    ++ "\ntype=wifi\nautoconnect=true\n\n[wifi]\nssid=" ++ ssid
    ++ "\nmode=infrastructure\n\n[wifi-security]\nkey-mgmt=wpa-psk\npsk=" ++ psk
    ++ "\n\n[ipv4]\nmethod=auto\n\n[ipv6]\nmethod=auto\n"

end Vistula

namespace Vistula

/-- `InstallerEngine.run_install` (installer.py lines 209–519), written as
an explicit sequence in `M`.  The fixed target mount point
`/mnt/vistula-target` is inlined, as are the engine's local variables.
The tuple produced by the partition/format branch is
`(root_part, efi_part, home_part, swap_part)`; the erase branch predicts
partition nodes with `erasePartDevs` (the inline naming of lines
242–248).  The dry-run guard around each direct file write mirrors the
source; note that `fstab.parent.mkdir` (line 177) and `nm_dir.mkdir`
(line 405) run even in dry-run mode, exactly as in the source.  The
`flatpaks` local of lines 453–457 is bound only inside the
`if pkgs:` branch, so the `if flatpaks:` test of line 458 finds it
unbound when the package list is empty: this is modelled by the
`Option (List String)` value and the `nameError` raise. -/
def runInstallM (w : World) (dry : Bool) (cfg : InstallConfig) : M Unit :=
  mbind (mOfExcept (validateReady w cfg)) fun _ =>
  mbind (if w.euid != 0 && !dry then
           mthrow (PyError.permissionError
             "Installer must be run as root (or use --dry-run)")
         else mpure ()) fun _ =>
  mbind (if cfg.erase_disk then
           -- Partitioning (GPT + EFI + root) + format
           mbind (stepE 5 "Partitioning disk") fun _ =>
           mbind (doCmd w dry ["wipefs", "-a", cfg.target_disk.getD ""] true false none) fun _ =>
           mbind (doCmd w dry ["parted", "-s", cfg.target_disk.getD "", "mklabel", "gpt"] true false none) fun _ =>
           mbind (doCmd w dry ["parted", "-s", cfg.target_disk.getD "", "mkpart", "EFI", "fat32", "1MiB", "513MiB"] true false none) fun _ =>
           mbind (doCmd w dry ["parted", "-s", cfg.target_disk.getD "", "set", "1", "esp", "on"] true false none) fun _ =>
           mbind (doCmd w dry ["parted", "-s", cfg.target_disk.getD "", "mkpart", "ROOT", "ext4", "513MiB", "100%"] true false none) fun _ =>
           mbind (stepE 15 "Formatting partitions") fun _ =>
           mbind (doCmd w dry ["mkfs.vfat", "-F", "32", (erasePartDevs (cfg.target_disk.getD "")).1] true false none) fun _ =>
           mbind (doCmd w dry ["mkfs.ext4", "-F", (erasePartDevs (cfg.target_disk.getD "")).2] true false none) fun _ =>
           mpure ((erasePartDevs (cfg.target_disk.getD "")).2,
                  some (erasePartDevs (cfg.target_disk.getD "")).1,
                  (none : Option String), (none : Option String))
         else
           -- Manual partitioning flow
           mbind (stepE 10 "Formatting partitions") fun _ =>
           mbind (if cfg.format_root then
                    doCmd w dry ["mkfs.ext4", "-F", cfg.root_partition] true false none
                  else mpure ()) fun _ =>
           mbind (mWhenSome (if cfg.efi_partition = "" then none else some cfg.efi_partition) (fun e =>
                    if cfg.format_efi then doCmd w dry ["mkfs.vfat", "-F", "32", e] true false none
                    else mpure ())) fun _ =>
           mbind (mWhenSome (if cfg.home_partition = "" then none else some cfg.home_partition) (fun h =>
                    if cfg.format_home then doCmd w dry ["mkfs.ext4", "-F", h] true false none
                    else mpure ())) fun _ =>
           mbind (mWhenSome (if cfg.swap_partition = "" then none else some cfg.swap_partition) (fun s =>
                    if cfg.format_swap then doCmd w dry ["mkswap", s] true false none
                    else mpure ())) fun _ =>
           mpure (cfg.root_partition,
                  (if cfg.efi_partition = "" then none else some cfg.efi_partition),
                  (if cfg.home_partition = "" then none else some cfg.home_partition),
                  (if cfg.swap_partition = "" then none else some cfg.swap_partition))
        ) fun parts =>
  mbind (stepE 25 "Mounting target") fun _ =>
  mbind (doCmd w dry ["mkdir", "-p", "/mnt/vistula-target"] true false none) fun _ =>
  mbind (doCmd w dry ["mount", parts.1, "/mnt/vistula-target"] true false none) fun _ =>
  mbind (mWhenSome parts.2.2.1 (fun hp =>
           mbind (doCmd w dry ["mkdir", "-p", "/mnt/vistula-target/home"] true false none) fun _ =>
           doCmd w dry ["mount", hp, "/mnt/vistula-target/home"] true false none)) fun _ =>
  mbind (mWhenSome parts.2.1 (fun ep =>
           mbind (doCmd w dry ["mkdir", "-p", "/mnt/vistula-target/boot/efi"] true false none) fun _ =>
           doCmd w dry ["mount", ep, "/mnt/vistula-target/boot/efi"] true false none)) fun _ =>
  mbind (mWhenSome parts.2.2.2 (fun sp =>
           -- Best-effort; helps installers on low RAM.
           doCmd w dry ["swapon", sp] false false none)) fun _ =>
  mbind (stepE 45 "Copying system files") fun _ =>
  mbind (doCmd w dry ["rsync", "-aAXH", "--numeric-ids", "--exclude=/dev/*",
                      "--exclude=/proc/*", "--exclude=/sys/*", "--exclude=/run/*",
                      "--exclude=/tmp/*", "--exclude=/mnt/*", "--exclude=/media/*",
                      "--exclude=/lost+found", "/", "/mnt/vistula-target"] true false none) fun _ =>
  mbind (stepE 60 "Writing fstab") fun _ =>
  -- _write_fstab: the parent mkdir happens even in dry-run mode
  mbind (fsOp (FsOp.mkdirp "/mnt/vistula-target/etc")) fun _ =>
  mbind (buildFstabContentM w dry parts.1 parts.2.1 parts.2.2.1 parts.2.2.2) fun fstabContent =>
  mbind (if dry then mpure ()
         else fsOp (FsOp.write "/mnt/vistula-target/etc/fstab" fstabContent)) fun _ =>
  mbind (stepE 75 "Preparing chroot") fun _ =>
  mbind (mForList (fun d =>
           doCmd w dry ["mount", "--bind", "/" ++ d, "/mnt/vistula-target/" ++ d] true false none)
         ["dev", "proc", "sys"]) fun _ =>
  mbind (stepE 80 "Configuring system") fun _ =>
  mbind (if dry then mpure ()
         else
           mbind (fsOp (FsOp.mkdirp "/mnt/vistula-target/etc")) fun _ =>
           mbind (fsOp (FsOp.write "/mnt/vistula-target/etc/hostname" (cfg.hostname ++ "\n"))) fun _ =>
           fsOp (FsOp.write "/mnt/vistula-target/etc/hosts" (hostsContent cfg.hostname))) fun _ =>
  -- Timezone (best-effort, distro-dependent)
  mbind (if dry then mpure ()
         else
           mbind (if w.fileExists ("/mnt/vistula-target/usr/share/zoneinfo/" ++ cfg.timezone) then
                    mbind (fsOp (FsOp.mkdirp "/mnt/vistula-target/etc")) fun _ =>
                    mbind (if w.fileExists "/mnt/vistula-target/etc/localtime" then
                             fsOp (FsOp.unlink "/mnt/vistula-target/etc/localtime")
                           else mpure ()) fun _ =>
                    fsOp (FsOp.symlink ("/mnt/vistula-target/usr/share/zoneinfo/" ++ cfg.timezone)
                            "/mnt/vistula-target/etc/localtime")
                  else mpure ()) fun _ =>
           fsOp (FsOp.write "/mnt/vistula-target/etc/timezone" (cfg.timezone ++ "\n"))) fun _ =>
  -- Keyboard (Debian-like)
  mbind (if dry then mpure ()
         else
           mbind (fsOp (FsOp.mkdirp "/mnt/vistula-target/etc/default")) fun _ =>
           fsOp (FsOp.write "/mnt/vistula-target/etc/default/keyboard"
                   (keyboardContent cfg.keyboard_layout))) fun _ =>
  mbind (stepE 82 "Configuring locale") fun _ =>
  mbind (if dry then mpure ()
         else
           mbind (fsOp (FsOp.mkdirp "/mnt/vistula-target/etc")) fun _ =>
           mbind (fsOp (FsOp.write "/mnt/vistula-target/etc/locale.conf"
                          ("LANG=" ++ cfg.locale ++ "\n"))) fun _ =>
           fsOp (FsOp.write "/mnt/vistula-target/etc/vconsole.conf"
                   ("KEYMAP=" ++ cfg.keyboard_layout ++ "\n"))) fun _ =>
  mbind (if w.fileExists "/mnt/vistula-target/etc/locale.gen" then
           mbind (if dry then mpure ()
                  else fsOp (FsOp.write "/mnt/vistula-target/etc/locale.gen"
                               (localeGenRewrite
                                 (w.readFile "/mnt/vistula-target/etc/locale.gen")
                                 cfg.generate_all_locales_arch cfg.locale))) fun _ =>
           -- Generate locales if tool exists
           doCmd w dry ["chroot", "/mnt/vistula-target", "bash", "-lc",
                        "command -v locale-gen >/dev/null 2>&1 && locale-gen || true"]
             false false none
         else mpure ()) fun _ =>
  mbind (stepE 84 "Configuring network") fun _ =>
  mbind (if cfg.enable_networkmanager then
           doCmd w dry ["chroot", "/mnt/vistula-target", "bash", "-lc",
                        "command -v systemctl >/dev/null 2>&1 && systemctl enable NetworkManager || true"]
             false false none
         else mpure ()) fun _ =>
  mbind (if pyStrip cfg.wifi_ssid ≠ "" then
           -- nm_dir.mkdir happens even in dry-run mode
           mbind (fsOp (FsOp.mkdirp "/mnt/vistula-target/etc/NetworkManager/system-connections")) fun _ =>
           if dry then mpure ()
           else
             mbind (fsOp (FsOp.write
                      ("/mnt/vistula-target/etc/NetworkManager/system-connections/"
                         ++ pyStrip cfg.wifi_ssid ++ ".nmconnection")
                      (wifiProfile (pyStrip cfg.wifi_ssid) w.freshUuid cfg.wifi_password))) fun _ =>
             fsOp (FsOp.chmod
                     ("/mnt/vistula-target/etc/NetworkManager/system-connections/"
                        ++ pyStrip cfg.wifi_ssid ++ ".nmconnection") 0o600)
         else mpure ()) fun _ =>
  mbind (stepE 85 "Creating user") fun _ =>
  mbind (doCmd w dry ["chroot", "/mnt/vistula-target", "useradd", "-m", "-s", "/bin/bash", cfg.username]
           false false none) fun _ =>
  mbind (doCmd w dry ["chroot", "/mnt/vistula-target", "chpasswd"] true false
           (some (cfg.username ++ ":" ++ cfg.password ++ "\n"))) fun _ =>
  -- Optional packages (Arch)
  mbind (stepE 88 "Installing optional software") fun _ =>
  mbind (if archPackagesForSelection (selectionFromConfig cfg) ≠ [] then
           mbind (if w.fileExists "/mnt/vistula-target/usr/bin/pacman" then
                    doCmd w dry (["chroot", "/mnt/vistula-target", "pacman", "-S", "--noconfirm", "--needed"]
                                  ++ archPackagesForSelection (selectionFromConfig cfg)) false false none
                  else mpure ()) fun _ =>
           -- Optional Flatpak apps (best-effort): deduplicate, stable order
           mpure (some (dedupFirst []
                    (cfg.flatpak_apps ++ flatpakAppidsForSelection (selectionFromConfig cfg))))
         else mpure (none : Option (List String))) fun flatpaksOpt =>
  -- line 458 `if flatpaks:` — unbound local when the branch above was skipped
  mbind (mCaseOpt flatpaksOpt (mthrow (PyError.nameError "flatpaks"))
           (fun f => mpure f)) fun flatpaks =>
  mbind (if flatpaks ≠ [] then
           if w.fileExists "/mnt/vistula-target/usr/bin/flatpak" then
             -- Add flathub remote if possible
             mbind (doCmd w dry ["chroot", "/mnt/vistula-target", "flatpak", "remote-add",
                                 "--if-not-exists", "flathub",
                                 "https://flathub.org/repo/flathub.flatpakrepo"] false false none) fun _ =>
             mForList (fun appid =>
               doCmd w dry ["chroot", "/mnt/vistula-target", "flatpak", "install", "-y", "flathub", appid]
                 false false none) flatpaks
           else mpure ()
         else mpure ()) fun _ =>
  mbind (stepE 90 "Installing bootloader") fun _ =>
  mbind (if w.fileExists "/sys/firmware/efi" then
           doCmd w dry ["chroot", "/mnt/vistula-target", "grub-install", "--target=x86_64-efi",
                        "--efi-directory=/boot/efi", "--bootloader-id=VistulaOS"] true false none
         else
           doCmd w dry ["chroot", "/mnt/vistula-target", "grub-install", "--target=i386-pc",
                        cfg.target_disk.getD ""] true false none) fun _ =>
  -- update-grub is distro-specific; fall back to grub-mkconfig.
  mbind (doCmd w dry ["chroot", "/mnt/vistula-target", "bash", "-lc",
                      "command -v update-grub >/dev/null 2>&1 && update-grub || grub-mkconfig -o /boot/grub/grub.cfg"]
           true false none) fun _ =>
  mbind (stepE 95 "Finalizing") fun _ =>
  mbind (mWhenSome parts.2.2.2 (fun sp =>
           doCmd w dry ["swapoff", sp] false false none)) fun _ =>
  -- Unmount everything under the target mountpoint
  mbind (doCmd w dry ["umount", "-R", "/mnt/vistula-target"] false false none) fun _ =>
  stepE 100 "Done"

end Vistula

deriving instance DecidableEq for Except

namespace Vistula

/-! ## Specification predicates over traces and computations -/

/-- The percentage sequence reported to the progress callback. -/
def percents (t : Trace) : List Nat := t.events.map Prod.fst

/-- The C10 invariant on an event trace: reported percentages are
monotonically non-decreasing and at most 100. -/
def evW (t : Trace) : Prop :=
  List.Chain' (· ≤ ·) (percents t) ∧ ∀ p ∈ percents t, p ≤ 100

/-- The last reported percentage (if any) is at most `n`. -/
def lastLe (n : Nat) (t : Trace) : Prop :=
  ∀ p ∈ (percents t).getLast?, p ≤ n

/-- `evW` together with an upper bound on the last reported percentage. -/
def evOK (n : Nat) (t : Trace) : Prop := evW t ∧ lastLe n t

/-- A computation that does not touch the event list. -/
def EF {α : Type} (m : M α) : Prop :=
  ∀ t, ((m t).2).events = t.events

/-- A command that runs `flatpak` inside the target chroot (the only
shape through which `run_install` installs sandboxed apps). -/
def isFlatpakCmd (args : List String) : Prop :=
  args.headD "" = "chroot" ∧ args.getD 2 "" = "flatpak"

instance (args : List String) : Decidable (isFlatpakCmd args) := by
  unfold isFlatpakCmd; infer_instance

/-- No command of the list is a chroot `flatpak` invocation. -/
def NoFlatpakCmd (l : List (List String)) : Prop :=
  ∀ args ∈ l, ¬ isFlatpakCmd args

/-- A computation that neither reports progress nor issues a chroot
`flatpak` command. -/
def Quiet {α : Type} (m : M α) : Prop :=
  ∀ t, ((m t).2).events = t.events ∧
    (NoFlatpakCmd t.issued → NoFlatpakCmd ((m t).2).issued)

/-- Hoare-style triple for `M`: from a precondition on the incoming
trace, `Q` holds for the result value and final trace on normal return
and `E` holds for the exception and final trace on a raise. -/
def HTE {α : Type} (P : Trace → Prop) (m : M α)
    (Q : α → Trace → Prop) (E : PyError → Trace → Prop) : Prop :=
  ∀ t, P t →
    (∀ a t', m t = (Except.ok a, t') → Q a t') ∧
    (∀ e t', m t = (Except.error e, t') → E e t')

/-- Pre-"software step" invariant for the C2 analysis: neither 88 nor 90
reported yet, and no flatpak command issued. -/
def preSW (t : Trace) : Prop :=
  (88 ∉ percents t ∧ 90 ∉ percents t) ∧ NoFlatpakCmd t.issued

/-- Post-"software step" invariant: 90 not reported, no flatpak command
issued. -/
def postSW (t : Trace) : Prop :=
  90 ∉ percents t ∧ NoFlatpakCmd t.issued

/-- What holds of every exception `run_install` can raise when the
resolved native package list is empty: the bootloader step is never
reported, no flatpak command was issued, and any raise after the 88%
report is the unbound-local `flatpaks` error. -/
def errSW (e : PyError) (t : Trace) : Prop :=
  (90 ∉ percents t ∧ NoFlatpakCmd t.issued) ∧
    (88 ∈ percents t → e = PyError.nameError "flatpaks")

/-! ## Concrete worlds and configurations for the closed instances -/

/-- A benign world: every subprocess succeeds with empty output, only
`/sys/firmware/efi` exists (a simulated UEFI host), running as root. -/
def wDry : World where
  exec := fun _ _ _ => ⟨0, "", ""⟩
  fileExists := fun p => p == "/sys/firmware/efi"
  readFile := fun _ => ""
  euid := 0
  freshUuid := "u"

/-- `wDry` but not running as superuser. -/
def wNonRoot : World := { wDry with euid := 1000 }

/-- Erase-whole-disk configuration of `/dev/sda`, password set, no
software selected, no explicit flatpak apps. -/
def cfgErase : InstallConfig :=
  { cfgBase with target_disk := some "/dev/sda", erase_disk := true, password := "pw" }

/-- Fully populated manual configuration (root, EFI, password). -/
def cfgManualFull : InstallConfig :=
  { cfgBase with target_disk := some "/dev/sda", root_partition := "/dev/sda2",
                 efi_partition := "/dev/sda1", password := "pw" }

/-- The stubbed resolver world of the C3 example: `blkid` reports
`PARTUUID=ABCD` for `/dev/sda2` and fails for every other device. -/
def wBlkid : World where
  exec := fun args _ _ =>
    if args = ["blkid", "-o", "export", "/dev/sda2"] then ⟨0, "PARTUUID=ABCD\n", ""⟩
    else ⟨2, "", ""⟩
  fileExists := fun _ => false
  readFile := fun _ => ""
  euid := 0
  freshUuid := "u"

/-- A world whose subprocesses fail with exit code 1 and stderr `"A"`. -/
def wErrA : World where
  exec := fun _ _ _ => ⟨1, "", "A"⟩
  fileExists := fun _ => false
  readFile := fun _ => ""
  euid := 0
  freshUuid := "u"

/-- Like `wErrA` but with stderr `"B"`. -/
def wErrB : World where
  exec := fun _ _ _ => ⟨1, "", "B"⟩
  fileExists := fun _ => false
  readFile := fun _ => ""
  euid := 0
  freshUuid := "u"

end Vistula

namespace Vistula

/-! ## Framework lemmas -/

theorem hte_seqP {α β : Type} {P : Trace → Prop} {R : β → Trace → Prop}
    {E : PyError → Trace → Prop} {m : M α} {f : α → M β}
    (Q : α → Trace → Prop)
    (h1 : HTE P m Q E) (h2 : ∀ a, HTE (Q a) (f a) R E) :
    HTE P (mbind m f) R E := by
  intro t hP
  obtain ⟨hok, herr⟩ := h1 t hP
  rcases hm : m t with ⟨r, tm⟩
  cases r with
  | ok a =>
    obtain ⟨hok2, herr2⟩ := h2 a tm (hok a tm hm)
    refine ⟨fun b t' hb => hok2 b t' ?_, fun e t' he => herr2 e t' ?_⟩
    · simpa [mbind, hm] using hb
    · simpa [mbind, hm] using he
  | error e =>
    have hE := herr e tm hm
    refine ⟨fun b t' hb => ?_, fun e' t' he => ?_⟩
    · simp [mbind, hm] at hb
    · simp [mbind, hm] at he
      obtain ⟨rfl, rfl⟩ := he
      exact hE

theorem hte_pure {α : Type} {P : Trace → Prop} {Q : α → Trace → Prop}
    {E : PyError → Trace → Prop} {a : α} (h : ∀ t, P t → Q a t) :
    HTE P (mpure a) Q E := by
  intro t hP
  refine ⟨fun b t' hb => ?_, fun e t' he => ?_⟩
  · simp [mpure] at hb
    obtain ⟨rfl, rfl⟩ := hb
    exact h t hP
  · simp [mpure] at he

theorem hte_throw {α : Type} {P : Trace → Prop} {Q : α → Trace → Prop}
    {E : PyError → Trace → Prop} {e : PyError} (h : ∀ t, P t → E e t) :
    HTE P (mthrow e : M α) Q E := by
  intro t hP
  refine ⟨fun b t' hb => ?_, fun e' t' he => ?_⟩
  · simp [mthrow] at hb
  · simp [mthrow] at he
    obtain ⟨rfl, rfl⟩ := he
    exact h t hP

theorem hte_preFalse {α : Type} {P : Trace → Prop} {Q : α → Trace → Prop}
    {E : PyError → Trace → Prop} {m : M α} (h : ∀ t, P t → False) :
    HTE P m Q E :=
  fun t hP => absurd hP (h t)

theorem hte_ite {α : Type} {c : Prop} [Decidable c] {P : Trace → Prop}
    {Q : α → Trace → Prop} {E : PyError → Trace → Prop} {m₁ m₂ : M α}
    (h1 : c → HTE P m₁ Q E) (h2 : ¬c → HTE P m₂ Q E) :
    HTE P (if c then m₁ else m₂) Q E := by
  by_cases h : c
  · simpa [h] using h1 h
  · simpa [h] using h2 h

theorem hte_caseOpt {α β : Type} {o : Option α} {P : Trace → Prop}
    {Q : β → Trace → Prop} {E : PyError → Trace → Prop}
    {z : M β} {f : α → M β}
    (hz : o = none → HTE P z Q E) (hf : ∀ a, o = some a → HTE P (f a) Q E) :
    HTE P (mCaseOpt o z f) Q E := by
  cases o with
  | none => exact hz rfl
  | some a => exact hf a rfl

/-! ### Event-frame lemmas -/

theorem ef_mpure {α : Type} {a : α} : EF (mpure a) := fun _ => rfl

theorem ef_mthrow {α : Type} {e : PyError} : EF (mthrow e : M α) := fun _ => rfl

theorem ef_mOfExcept {α : Type} {x : Except PyError α} : EF (mOfExcept x) :=
  fun _ => rfl

theorem ef_fsOp {op : FsOp} : EF (fsOp op) := by
  intro t; rcases t with ⟨ev, ex, is, lg, fs⟩; rfl

theorem ef_exeRun {w : World} {dry : Bool} {args : List String} {check : Bool}
    {cwd : Option String} {allow : Bool} {inp : Option String} :
    EF (exeRun w dry args check cwd allow inp) := by
  intro t; rcases t with ⟨ev, ex, is, lg, fs⟩
  simp only [exeRun]
  split
  · rfl
  · split <;> rfl

theorem ef_mbind {α β : Type} {m : M α} {f : α → M β}
    (hm : EF m) (hf : ∀ a, EF (f a)) : EF (mbind m f) := by
  intro t
  rcases hmt : m t with ⟨r, tm⟩
  have h1 : tm.events = t.events := by
    have := hm t; rwa [hmt] at this
  cases r with
  | ok a => simp only [mbind, hmt]; rw [hf a tm]; exact h1
  | error e => simp only [mbind, hmt]; exact h1

theorem ef_doCmd {w : World} {dry : Bool} {args : List String} {check : Bool}
    {allow : Bool} {inp : Option String} :
    EF (doCmd w dry args check allow inp) :=
  ef_mbind ef_exeRun (fun _ => ef_mpure)

theorem ef_ite {α : Type} {c : Prop} [Decidable c] {m₁ m₂ : M α}
    (h1 : EF m₁) (h2 : EF m₂) : EF (if c then m₁ else m₂) := by
  by_cases h : c
  · simpa [h] using h1
  · simpa [h] using h2

theorem ef_whenSome {α : Type} {o : Option α} {f : α → M Unit}
    (hf : ∀ a, EF (f a)) : EF (mWhenSome o f) := by
  cases o with
  | none => exact ef_mpure
  | some a => exact hf a

theorem ef_caseOpt {α β : Type} {o : Option α} {z : M β} {f : α → M β}
    (hz : EF z) (hf : ∀ a, EF (f a)) :
    EF (mCaseOpt o z f) := by
  cases o with
  | none => exact hz
  | some a => exact hf a

theorem ef_forList {α : Type} {f : α → M Unit} (hf : ∀ a, EF (f a)) :
    ∀ l : List α, EF (mForList f l)
  | [] => ef_mpure
  | x :: xs => ef_mbind (hf x) (fun _ => ef_forList hf xs)

theorem ef_blkidExportM {w : World} {dry : Bool} {dev : String} :
    EF (blkidExportM w dry dev) :=
  ef_mbind ef_exeRun (fun _ => ef_ite ef_mpure ef_mpure)

theorem ef_fstabIdentM {w : World} {dry : Bool} {dev : String} :
    EF (fstabIdentM w dry dev) :=
  ef_mbind ef_blkidExportM
    (fun _ => ef_ite ef_mpure (ef_ite ef_mpure ef_mpure))

theorem ef_fstypeM {w : World} {dry : Bool} {dev fb : String} :
    EF (fstypeM w dry dev fb) :=
  ef_mbind ef_blkidExportM (fun _ => ef_ite ef_mpure ef_mpure)

theorem ef_devrefM {w : World} {dry : Bool} {dev : String} :
    EF (devrefM w dry dev) :=
  ef_mbind ef_fstabIdentM (fun _ => ef_caseOpt ef_mpure (fun _ => ef_mpure))

theorem ef_buildFstab {w : World} {dry : Bool} {root : String}
    {efi home swap : Option String} :
    EF (buildFstabContentM w dry root efi home swap) :=
  ef_mbind ef_fstypeM (fun _ =>
  ef_mbind ef_devrefM (fun _ =>
  ef_mbind (ef_caseOpt ef_mpure (fun _ =>
              ef_mbind ef_fstypeM (fun _ =>
              ef_mbind ef_devrefM (fun _ => ef_mpure)))) (fun _ =>
  ef_mbind (ef_caseOpt ef_mpure (fun _ =>
              ef_mbind ef_fstypeM (fun _ =>
              ef_mbind ef_devrefM (fun _ => ef_mpure)))) (fun _ =>
  ef_mbind (ef_caseOpt ef_mpure (fun _ =>
              ef_mbind ef_devrefM (fun _ => ef_mpure))) (fun _ =>
  ef_mpure)))))

end Vistula

namespace Vistula

/-! ### Event-invariant lemmas -/

theorem evW_of_events_eq {t t' : Trace} (h : t'.events = t.events)
    (hw : evW t) : evW t' := by
  unfold evW percents at *
  rw [h]
  exact hw

theorem evOK_of_events_eq {n : Nat} {t t' : Trace} (h : t'.events = t.events)
    (hw : evOK n t) : evOK n t' := by
  obtain ⟨h1, h2⟩ := hw
  refine ⟨evW_of_events_eq h h1, ?_⟩
  unfold lastLe percents at *
  rw [h]
  exact h2

theorem evOK_mono {n m : Nat} {t : Trace} (h : n ≤ m) (hw : evOK n t) :
    evOK m t :=
  ⟨hw.1, fun p hp => le_trans (hw.2 p hp) h⟩

theorem evOK_t0 : evOK 0 t0 := by
  refine ⟨⟨?_, ?_⟩, ?_⟩ <;> simp [t0, percents, lastLe]

theorem hte_stepE {n p : Nat} {msg : String} (hnp : n ≤ p) (hp : p ≤ 100) :
    HTE (evOK n) (stepE p msg) (fun _ => evOK p) (fun _ => evW) := by
  intro t ht
  rcases t with ⟨ev, ex, is, lg, fs⟩
  refine ⟨fun a t' hEq => ?_, fun e t' hEq => ?_⟩
  · simp only [stepE] at hEq
    obtain ⟨-, rfl⟩ := Prod.mk.injEq .. |>.mp hEq
    obtain ⟨⟨hch, hbd⟩, hlast⟩ := ht
    have hpc : percents ⟨ev ++ [(p, msg)], ex, is, lg, fs⟩
        = percents ⟨ev, ex, is, lg, fs⟩ ++ [p] := by
      simp [percents]
    constructor
    · constructor
      · rw [hpc]
        refine List.chain'_append.mpr ⟨hch, List.chain'_singleton p, ?_⟩
        intro x hx y hy
        simp at hy
        subst hy
        exact le_trans (hlast x hx) hnp
      · rw [hpc]
        intro q hq
        rcases List.mem_append.mp hq with hq | hq
        · exact hbd q hq
        · simp at hq; omega
    · unfold lastLe
      rw [hpc]
      intro q hq
      rw [List.getLast?_concat] at hq
      simp at hq
      omega
  · simp only [stepE] at hEq
    exact absurd (congrArg Prod.fst hEq) (by simp)

theorem hte_ef {α : Type} {n : Nat} {m : M α} (h : EF m) :
    HTE (evOK n) m (fun _ => evOK n) (fun _ => evW) := by
  intro t ht
  refine ⟨fun a t' hEq => ?_, fun e t' hEq => ?_⟩
  · have hev : t'.events = t.events := by
      have := h t; rw [hEq] at this; exact this
    exact evOK_of_events_eq hev ht
  · have hev : t'.events = t.events := by
      have := h t; rw [hEq] at this; exact this
    exact (evOK_of_events_eq hev ht).1

/-- The complete monotonicity walk over `run_install`: starting from a
trace whose reported percentages are a bounded non-decreasing chain
ending at most at 0, the run ends (normally or with a raise) in a trace
whose percentages are a bounded non-decreasing chain. -/
theorem runInstall_hoare (w : World) (dry : Bool) (cfg : InstallConfig) :
    HTE (evOK 0) (runInstallM w dry cfg) (fun _ => evOK 100) (fun _ => evW) := by
  unfold runInstallM
  refine hte_seqP (fun _ => evOK 0) (hte_ef ef_mOfExcept) fun _ => ?_
  refine hte_seqP (fun _ => evOK 0) (hte_ef (ef_ite ef_mthrow ef_mpure)) fun _ => ?_
  refine hte_seqP (fun _ => evOK 15) (hte_ite (fun _ => ?_) (fun _ => ?_)) fun parts => ?_
  · -- erase-disk branch
    refine hte_seqP (fun _ => evOK 5) (hte_stepE (by omega) (by omega)) fun _ => ?_
    refine hte_seqP (fun _ => evOK 5) (hte_ef ef_doCmd) fun _ => ?_
    refine hte_seqP (fun _ => evOK 5) (hte_ef ef_doCmd) fun _ => ?_
    refine hte_seqP (fun _ => evOK 5) (hte_ef ef_doCmd) fun _ => ?_
    refine hte_seqP (fun _ => evOK 5) (hte_ef ef_doCmd) fun _ => ?_
    refine hte_seqP (fun _ => evOK 5) (hte_ef ef_doCmd) fun _ => ?_
    refine hte_seqP (fun _ => evOK 15) (hte_stepE (by omega) (by omega)) fun _ => ?_
    refine hte_seqP (fun _ => evOK 15) (hte_ef ef_doCmd) fun _ => ?_
    refine hte_seqP (fun _ => evOK 15) (hte_ef ef_doCmd) fun _ => ?_
    exact hte_pure fun t h => h
  · -- manual branch
    refine hte_seqP (fun _ => evOK 10) (hte_stepE (by omega) (by omega)) fun _ => ?_
    refine hte_seqP (fun _ => evOK 10) (hte_ef (ef_ite ef_doCmd ef_mpure)) fun _ => ?_
    refine hte_seqP (fun _ => evOK 10)
      (hte_ef (ef_whenSome fun _ => ef_ite ef_doCmd ef_mpure)) fun _ => ?_
    refine hte_seqP (fun _ => evOK 10)
      (hte_ef (ef_whenSome fun _ => ef_ite ef_doCmd ef_mpure)) fun _ => ?_
    refine hte_seqP (fun _ => evOK 10)
      (hte_ef (ef_whenSome fun _ => ef_ite ef_doCmd ef_mpure)) fun _ => ?_
    exact hte_pure fun t h => evOK_mono (by omega) h
  -- common tail
  refine hte_seqP (fun _ => evOK 25) (hte_stepE (by omega) (by omega)) fun _ => ?_
  refine hte_seqP (fun _ => evOK 25) (hte_ef ef_doCmd) fun _ => ?_
  refine hte_seqP (fun _ => evOK 25) (hte_ef ef_doCmd) fun _ => ?_
  refine hte_seqP (fun _ => evOK 25)
    (hte_ef (ef_whenSome fun _ => ef_mbind ef_doCmd fun _ => ef_doCmd)) fun _ => ?_
  refine hte_seqP (fun _ => evOK 25)
    (hte_ef (ef_whenSome fun _ => ef_mbind ef_doCmd fun _ => ef_doCmd)) fun _ => ?_
  refine hte_seqP (fun _ => evOK 25)
    (hte_ef (ef_whenSome fun _ => ef_doCmd)) fun _ => ?_
  refine hte_seqP (fun _ => evOK 45) (hte_stepE (by omega) (by omega)) fun _ => ?_
  refine hte_seqP (fun _ => evOK 45) (hte_ef ef_doCmd) fun _ => ?_
  refine hte_seqP (fun _ => evOK 60) (hte_stepE (by omega) (by omega)) fun _ => ?_
  refine hte_seqP (fun _ => evOK 60) (hte_ef ef_fsOp) fun _ => ?_
  refine hte_seqP (fun _ => evOK 60) (hte_ef ef_buildFstab) fun fstabContent => ?_
  refine hte_seqP (fun _ => evOK 60) (hte_ef (ef_ite ef_mpure ef_fsOp)) fun _ => ?_
  refine hte_seqP (fun _ => evOK 75) (hte_stepE (by omega) (by omega)) fun _ => ?_
  refine hte_seqP (fun _ => evOK 75)
    (hte_ef (ef_forList (fun _ => ef_doCmd) _)) fun _ => ?_
  refine hte_seqP (fun _ => evOK 80) (hte_stepE (by omega) (by omega)) fun _ => ?_
  refine hte_seqP (fun _ => evOK 80)
    (hte_ef (ef_ite ef_mpure
      (ef_mbind ef_fsOp fun _ => ef_mbind ef_fsOp fun _ => ef_fsOp))) fun _ => ?_
  refine hte_seqP (fun _ => evOK 80)
    (hte_ef (ef_ite ef_mpure
      (ef_mbind (ef_ite (ef_mbind ef_fsOp fun _ =>
                   ef_mbind (ef_ite ef_fsOp ef_mpure) fun _ => ef_fsOp) ef_mpure)
        fun _ => ef_fsOp))) fun _ => ?_
  refine hte_seqP (fun _ => evOK 80)
    (hte_ef (ef_ite ef_mpure (ef_mbind ef_fsOp fun _ => ef_fsOp))) fun _ => ?_
  refine hte_seqP (fun _ => evOK 82) (hte_stepE (by omega) (by omega)) fun _ => ?_
  refine hte_seqP (fun _ => evOK 82)
    (hte_ef (ef_ite ef_mpure
      (ef_mbind ef_fsOp fun _ => ef_mbind ef_fsOp fun _ => ef_fsOp))) fun _ => ?_
  refine hte_seqP (fun _ => evOK 82)
    (hte_ef (ef_ite (ef_mbind (ef_ite ef_mpure ef_fsOp) fun _ => ef_doCmd)
      ef_mpure)) fun _ => ?_
  refine hte_seqP (fun _ => evOK 84) (hte_stepE (by omega) (by omega)) fun _ => ?_
  refine hte_seqP (fun _ => evOK 84) (hte_ef (ef_ite ef_doCmd ef_mpure)) fun _ => ?_
  refine hte_seqP (fun _ => evOK 84)
    (hte_ef (ef_ite (ef_mbind ef_fsOp fun _ =>
              ef_ite ef_mpure (ef_mbind ef_fsOp fun _ => ef_fsOp)) ef_mpure)) fun _ => ?_
  refine hte_seqP (fun _ => evOK 85) (hte_stepE (by omega) (by omega)) fun _ => ?_
  refine hte_seqP (fun _ => evOK 85) (hte_ef ef_doCmd) fun _ => ?_
  refine hte_seqP (fun _ => evOK 85) (hte_ef ef_doCmd) fun _ => ?_
  refine hte_seqP (fun _ => evOK 88) (hte_stepE (by omega) (by omega)) fun _ => ?_
  refine hte_seqP (fun _ => evOK 88)
    (hte_ef (ef_ite (ef_mbind (ef_ite ef_doCmd ef_mpure) fun _ => ef_mpure)
      ef_mpure)) fun flatpaksOpt => ?_
  refine hte_seqP (fun _ => evOK 88)
    (hte_ef (ef_caseOpt ef_mthrow fun _ => ef_mpure)) fun flatpaks => ?_
  refine hte_seqP (fun _ => evOK 88)
    (hte_ef (ef_ite (ef_ite (ef_mbind ef_doCmd fun _ =>
              ef_forList (fun _ => ef_doCmd) _) ef_mpure) ef_mpure)) fun _ => ?_
  refine hte_seqP (fun _ => evOK 90) (hte_stepE (by omega) (by omega)) fun _ => ?_
  refine hte_seqP (fun _ => evOK 90) (hte_ef (ef_ite ef_doCmd ef_doCmd)) fun _ => ?_
  refine hte_seqP (fun _ => evOK 90) (hte_ef ef_doCmd) fun _ => ?_
  refine hte_seqP (fun _ => evOK 95) (hte_stepE (by omega) (by omega)) fun _ => ?_
  refine hte_seqP (fun _ => evOK 95)
    (hte_ef (ef_whenSome fun _ => ef_doCmd)) fun _ => ?_
  refine hte_seqP (fun _ => evOK 95) (hte_ef ef_doCmd) fun _ => ?_
  exact hte_stepE (by omega) (by omega)

end Vistula

namespace Vistula

/-! ### Quiet-computation lemmas (no progress events, no flatpak command) -/

theorem noFlatpak_append {l : List (List String)} {args : List String}
    (h : NoFlatpakCmd l) (ha : ¬ isFlatpakCmd args) : NoFlatpakCmd (l ++ [args]) := by
  intro a hma
  rcases List.mem_append.mp hma with hm | hm
  · exact h a hm
  · simp at hm; subst hm; exact ha

theorem notFlat_head {x : String} {rest : List String} (hx : x ≠ "chroot") :
    ¬ isFlatpakCmd (x :: rest) := by
  rintro ⟨h, -⟩
  rw [List.headD_cons] at h
  exact hx h

theorem notFlat_third {x y z : String} {rest : List String} (hz : z ≠ "flatpak") :
    ¬ isFlatpakCmd (x :: y :: z :: rest) := by
  rintro ⟨-, h⟩
  simp only [List.getD_cons_succ, List.getD_cons_zero] at h
  exact hz h

theorem quiet_mpure {α : Type} {a : α} : Quiet (mpure a) := fun _ => ⟨rfl, id⟩

theorem quiet_mthrow {α : Type} {e : PyError} : Quiet (mthrow e : M α) :=
  fun _ => ⟨rfl, id⟩

theorem quiet_mOfExcept {α : Type} {x : Except PyError α} : Quiet (mOfExcept x) :=
  fun _ => ⟨rfl, id⟩

theorem quiet_fsOp {op : FsOp} : Quiet (fsOp op) := by
  intro t; rcases t with ⟨ev, ex, is, lg, fs⟩
  exact ⟨rfl, id⟩

theorem quiet_exeRun {w : World} {dry : Bool} {args : List String} {check : Bool}
    {cwd : Option String} {allow : Bool} {inp : Option String}
    (ha : ¬ isFlatpakCmd args) :
    Quiet (exeRun w dry args check cwd allow inp) := by
  intro t; rcases t with ⟨ev, ex, is, lg, fs⟩
  simp only [exeRun]
  split
  · exact ⟨rfl, fun h => noFlatpak_append h ha⟩
  · split
    · exact ⟨rfl, fun h => noFlatpak_append h ha⟩
    · exact ⟨rfl, fun h => noFlatpak_append h ha⟩

theorem quiet_mbind {α β : Type} {m : M α} {f : α → M β}
    (hm : Quiet m) (hf : ∀ a, Quiet (f a)) : Quiet (mbind m f) := by
  intro t
  rcases hmt : m t with ⟨r, tm⟩
  have h1 := hm t
  rw [hmt] at h1
  cases r with
  | ok a =>
    have h2 := hf a tm
    simp only [mbind, hmt]
    exact ⟨by rw [h2.1]; exact h1.1, fun h => h2.2 (h1.2 h)⟩
  | error e =>
    simp only [mbind, hmt]
    exact h1

theorem quiet_doCmd {w : World} {dry : Bool} {args : List String} {check : Bool}
    {allow : Bool} {inp : Option String} (ha : ¬ isFlatpakCmd args) :
    Quiet (doCmd w dry args check allow inp) :=
  quiet_mbind (quiet_exeRun ha) (fun _ => quiet_mpure)

theorem quiet_ite {α : Type} {c : Prop} [Decidable c] {m₁ m₂ : M α}
    (h1 : Quiet m₁) (h2 : Quiet m₂) : Quiet (if c then m₁ else m₂) := by
  by_cases h : c
  · simpa [h] using h1
  · simpa [h] using h2

theorem quiet_whenSome {α : Type} {o : Option α} {f : α → M Unit}
    (hf : ∀ a, Quiet (f a)) : Quiet (mWhenSome o f) := by
  cases o with
  | none => exact quiet_mpure
  | some a => exact hf a

theorem quiet_caseOpt {α β : Type} {o : Option α} {z : M β} {f : α → M β}
    (hz : Quiet z) (hf : ∀ a, Quiet (f a)) : Quiet (mCaseOpt o z f) := by
  cases o with
  | none => exact hz
  | some a => exact hf a

theorem quiet_forList {α : Type} {f : α → M Unit} (hf : ∀ a, Quiet (f a)) :
    ∀ l : List α, Quiet (mForList f l)
  | [] => quiet_mpure
  | x :: xs => quiet_mbind (hf x) (fun _ => quiet_forList hf xs)

theorem quiet_blkidExportM {w : World} {dry : Bool} {dev : String} :
    Quiet (blkidExportM w dry dev) :=
  quiet_mbind (quiet_exeRun (notFlat_head (by decide)))
    (fun _ => quiet_ite quiet_mpure quiet_mpure)

theorem quiet_fstabIdentM {w : World} {dry : Bool} {dev : String} :
    Quiet (fstabIdentM w dry dev) :=
  quiet_mbind quiet_blkidExportM
    (fun _ => quiet_ite quiet_mpure (quiet_ite quiet_mpure quiet_mpure))

theorem quiet_fstypeM {w : World} {dry : Bool} {dev fb : String} :
    Quiet (fstypeM w dry dev fb) :=
  quiet_mbind quiet_blkidExportM (fun _ => quiet_ite quiet_mpure quiet_mpure)

theorem quiet_devrefM {w : World} {dry : Bool} {dev : String} :
    Quiet (devrefM w dry dev) :=
  quiet_mbind quiet_fstabIdentM
    (fun _ => quiet_caseOpt quiet_mpure (fun _ => quiet_mpure))

theorem quiet_buildFstab {w : World} {dry : Bool} {root : String}
    {efi home swap : Option String} :
    Quiet (buildFstabContentM w dry root efi home swap) :=
  quiet_mbind quiet_fstypeM (fun _ =>
  quiet_mbind quiet_devrefM (fun _ =>
  quiet_mbind (quiet_caseOpt quiet_mpure (fun _ =>
                quiet_mbind quiet_fstypeM (fun _ =>
                quiet_mbind quiet_devrefM (fun _ => quiet_mpure)))) (fun _ =>
  quiet_mbind (quiet_caseOpt quiet_mpure (fun _ =>
                quiet_mbind quiet_fstypeM (fun _ =>
                quiet_mbind quiet_devrefM (fun _ => quiet_mpure)))) (fun _ =>
  quiet_mbind (quiet_caseOpt quiet_mpure (fun _ =>
                quiet_mbind quiet_devrefM (fun _ => quiet_mpure))) (fun _ =>
  quiet_mpure)))))

theorem hte_quiet_pre {α : Type} {m : M α} (h : Quiet m) :
    HTE preSW m (fun _ => preSW) errSW := by
  intro t ht
  obtain ⟨⟨h88, h90⟩, hnf⟩ := ht
  refine ⟨fun a t' hEq => ?_, fun e t' hEq => ?_⟩
  · have hq := h t
    rw [hEq] at hq
    refine ⟨⟨?_, ?_⟩, hq.2 hnf⟩
    · unfold percents; rw [hq.1]; exact h88
    · unfold percents; rw [hq.1]; exact h90
  · have hq := h t
    rw [hEq] at hq
    refine ⟨⟨?_, hq.2 hnf⟩, fun hmem => ?_⟩
    · unfold percents; rw [hq.1]; exact h90
    · unfold percents at hmem
      rw [hq.1] at hmem
      exact absurd hmem h88

theorem hte_stepSW {p : Nat} {msg : String} (h88 : p ≠ 88) (h90 : p ≠ 90) :
    HTE preSW (stepE p msg) (fun _ => preSW) errSW := by
  intro t ht
  rcases t with ⟨ev, ex, is, lg, fs⟩
  obtain ⟨⟨ha, hb⟩, hnf⟩ := ht
  refine ⟨fun a t' hEq => ?_, fun e t' hEq => ?_⟩
  · simp only [stepE] at hEq
    obtain ⟨-, rfl⟩ := Prod.mk.injEq .. |>.mp hEq
    refine ⟨⟨?_, ?_⟩, hnf⟩
    · simp only [percents, List.map_append] at *
      rintro hmem
      rcases List.mem_append.mp hmem with hm | hm
      · exact ha hm
      · simp at hm; omega
    · simp only [percents, List.map_append] at *
      rintro hmem
      rcases List.mem_append.mp hmem with hm | hm
      · exact hb hm
      · simp at hm; omega
  · simp only [stepE] at hEq
    exact absurd (congrArg Prod.fst hEq) (by simp)

theorem hte_step88 {msg : String} :
    HTE preSW (stepE 88 msg) (fun _ => postSW) errSW := by
  intro t ht
  rcases t with ⟨ev, ex, is, lg, fs⟩
  obtain ⟨⟨ha, hb⟩, hnf⟩ := ht
  refine ⟨fun a t' hEq => ?_, fun e t' hEq => ?_⟩
  · simp only [stepE] at hEq
    obtain ⟨-, rfl⟩ := Prod.mk.injEq .. |>.mp hEq
    refine ⟨?_, hnf⟩
    simp only [percents, List.map_append] at *
    rintro hmem
    rcases List.mem_append.mp hmem with hm | hm
    · exact hb hm
    · simp at hm
  · simp only [stepE] at hEq
    exact absurd (congrArg Prod.fst hEq) (by simp)

/-- Starting with a clean trace, a run whose resolved native package
list is empty can only raise; it never reports the 90% bootloader step,
never issues a chroot `flatpak` command, and any raise after the 88%
report is precisely the unbound-local `flatpaks` error. -/
theorem runInstall_noPkgs (w : World) (dry : Bool) (cfg : InstallConfig)
    (hpkgs : archPackagesForSelection (selectionFromConfig cfg) = []) :
    HTE preSW (runInstallM w dry cfg) (fun _ _ => False) errSW := by
  unfold runInstallM
  refine hte_seqP (fun _ => preSW) (hte_quiet_pre quiet_mOfExcept) fun _ => ?_
  refine hte_seqP (fun _ => preSW)
    (hte_quiet_pre (quiet_ite quiet_mthrow quiet_mpure)) fun _ => ?_
  refine hte_seqP (fun _ => preSW) (hte_ite (fun _ => ?_) (fun _ => ?_)) fun parts => ?_
  · -- erase-disk branch
    refine hte_seqP (fun _ => preSW) (hte_stepSW (by omega) (by omega)) fun _ => ?_
    refine hte_seqP (fun _ => preSW)
      (hte_quiet_pre (quiet_doCmd (notFlat_head (by decide)))) fun _ => ?_
    refine hte_seqP (fun _ => preSW)
      (hte_quiet_pre (quiet_doCmd (notFlat_head (by decide)))) fun _ => ?_
    refine hte_seqP (fun _ => preSW)
      (hte_quiet_pre (quiet_doCmd (notFlat_head (by decide)))) fun _ => ?_
    refine hte_seqP (fun _ => preSW)
      (hte_quiet_pre (quiet_doCmd (notFlat_head (by decide)))) fun _ => ?_
    refine hte_seqP (fun _ => preSW)
      (hte_quiet_pre (quiet_doCmd (notFlat_head (by decide)))) fun _ => ?_
    refine hte_seqP (fun _ => preSW) (hte_stepSW (by omega) (by omega)) fun _ => ?_
    refine hte_seqP (fun _ => preSW)
      (hte_quiet_pre (quiet_doCmd (notFlat_head (by decide)))) fun _ => ?_
    refine hte_seqP (fun _ => preSW)
      (hte_quiet_pre (quiet_doCmd (notFlat_head (by decide)))) fun _ => ?_
    exact hte_pure fun t h => h
  · -- manual branch
    refine hte_seqP (fun _ => preSW) (hte_stepSW (by omega) (by omega)) fun _ => ?_
    refine hte_seqP (fun _ => preSW)
      (hte_quiet_pre (quiet_ite (quiet_doCmd (notFlat_head (by decide))) quiet_mpure)) fun _ => ?_
    refine hte_seqP (fun _ => preSW)
      (hte_quiet_pre (quiet_whenSome fun _ =>
        quiet_ite (quiet_doCmd (notFlat_head (by decide))) quiet_mpure)) fun _ => ?_
    refine hte_seqP (fun _ => preSW)
      (hte_quiet_pre (quiet_whenSome fun _ =>
        quiet_ite (quiet_doCmd (notFlat_head (by decide))) quiet_mpure)) fun _ => ?_
    refine hte_seqP (fun _ => preSW)
      (hte_quiet_pre (quiet_whenSome fun _ =>
        quiet_ite (quiet_doCmd (notFlat_head (by decide))) quiet_mpure)) fun _ => ?_
    exact hte_pure fun t h => h
  -- common tail
  refine hte_seqP (fun _ => preSW) (hte_stepSW (by omega) (by omega)) fun _ => ?_
  refine hte_seqP (fun _ => preSW)
    (hte_quiet_pre (quiet_doCmd (notFlat_head (by decide)))) fun _ => ?_
  refine hte_seqP (fun _ => preSW)
    (hte_quiet_pre (quiet_doCmd (notFlat_head (by decide)))) fun _ => ?_
  refine hte_seqP (fun _ => preSW)
    (hte_quiet_pre (quiet_whenSome fun _ =>
      quiet_mbind (quiet_doCmd (notFlat_head (by decide)))
        fun _ => quiet_doCmd (notFlat_head (by decide)))) fun _ => ?_
  refine hte_seqP (fun _ => preSW)
    (hte_quiet_pre (quiet_whenSome fun _ =>
      quiet_mbind (quiet_doCmd (notFlat_head (by decide)))
        fun _ => quiet_doCmd (notFlat_head (by decide)))) fun _ => ?_
  refine hte_seqP (fun _ => preSW)
    (hte_quiet_pre (quiet_whenSome fun _ =>
      quiet_doCmd (notFlat_head (by decide)))) fun _ => ?_
  refine hte_seqP (fun _ => preSW) (hte_stepSW (by omega) (by omega)) fun _ => ?_
  refine hte_seqP (fun _ => preSW)
    (hte_quiet_pre (quiet_doCmd (notFlat_head (by decide)))) fun _ => ?_
  refine hte_seqP (fun _ => preSW) (hte_stepSW (by omega) (by omega)) fun _ => ?_
  refine hte_seqP (fun _ => preSW) (hte_quiet_pre quiet_fsOp) fun _ => ?_
  refine hte_seqP (fun _ => preSW) (hte_quiet_pre quiet_buildFstab) fun fstabContent => ?_
  refine hte_seqP (fun _ => preSW)
    (hte_quiet_pre (quiet_ite quiet_mpure quiet_fsOp)) fun _ => ?_
  refine hte_seqP (fun _ => preSW) (hte_stepSW (by omega) (by omega)) fun _ => ?_
  refine hte_seqP (fun _ => preSW)
    (hte_quiet_pre (quiet_forList (fun _ => quiet_doCmd (notFlat_head (by decide))) _)) fun _ => ?_
  refine hte_seqP (fun _ => preSW) (hte_stepSW (by omega) (by omega)) fun _ => ?_
  refine hte_seqP (fun _ => preSW)
    (hte_quiet_pre (quiet_ite quiet_mpure
      (quiet_mbind quiet_fsOp fun _ => quiet_mbind quiet_fsOp fun _ => quiet_fsOp))) fun _ => ?_
  refine hte_seqP (fun _ => preSW)
    (hte_quiet_pre (quiet_ite quiet_mpure
      (quiet_mbind (quiet_ite (quiet_mbind quiet_fsOp fun _ =>
          quiet_mbind (quiet_ite quiet_fsOp quiet_mpure) fun _ => quiet_fsOp) quiet_mpure)
        fun _ => quiet_fsOp))) fun _ => ?_
  refine hte_seqP (fun _ => preSW)
    (hte_quiet_pre (quiet_ite quiet_mpure
      (quiet_mbind quiet_fsOp fun _ => quiet_fsOp))) fun _ => ?_
  refine hte_seqP (fun _ => preSW) (hte_stepSW (by omega) (by omega)) fun _ => ?_
  refine hte_seqP (fun _ => preSW)
    (hte_quiet_pre (quiet_ite quiet_mpure
      (quiet_mbind quiet_fsOp fun _ => quiet_mbind quiet_fsOp fun _ => quiet_fsOp))) fun _ => ?_
  refine hte_seqP (fun _ => preSW)
    (hte_quiet_pre (quiet_ite
      (quiet_mbind (quiet_ite quiet_mpure quiet_fsOp)
        fun _ => quiet_doCmd (notFlat_third (by decide)))
      quiet_mpure)) fun _ => ?_
  refine hte_seqP (fun _ => preSW) (hte_stepSW (by omega) (by omega)) fun _ => ?_
  refine hte_seqP (fun _ => preSW)
    (hte_quiet_pre (quiet_ite (quiet_doCmd (notFlat_third (by decide))) quiet_mpure)) fun _ => ?_
  refine hte_seqP (fun _ => preSW)
    (hte_quiet_pre (quiet_ite
      (quiet_mbind quiet_fsOp fun _ =>
        quiet_ite quiet_mpure (quiet_mbind quiet_fsOp fun _ => quiet_fsOp))
      quiet_mpure)) fun _ => ?_
  refine hte_seqP (fun _ => preSW) (hte_stepSW (by omega) (by omega)) fun _ => ?_
  refine hte_seqP (fun _ => preSW)
    (hte_quiet_pre (quiet_doCmd (notFlat_third (by decide)))) fun _ => ?_
  refine hte_seqP (fun _ => preSW)
    (hte_quiet_pre (quiet_doCmd (notFlat_third (by decide)))) fun _ => ?_
  refine hte_seqP (fun _ => postSW) hte_step88 fun _ => ?_
  refine hte_seqP (fun a t => postSW t ∧ a = none)
    (hte_ite (fun hc => absurd hpkgs hc)
      (fun _ => hte_pure fun t h => ⟨h, rfl⟩)) fun flatpaksOpt => ?_
  refine hte_seqP (fun _ _ => False)
    (hte_caseOpt (fun _ => hte_throw fun t ht => ⟨⟨ht.1.1, ht.1.2⟩, fun _ => rfl⟩)
      (fun a ho => hte_preFalse fun t ht => by simp [ho] at ht))
    fun flatpaks => hte_preFalse fun t h => h

end Vistula

namespace Vistula

theorem preSW_t0 : preSW t0 := by
  refine ⟨⟨?_, ?_⟩, ?_⟩ <;> simp [t0, percents, NoFlatpakCmd]

/-- C10: within any single `run_install` call (erase-disk or manual
mode, any world, dry-run or not, aborted or completed), the sequence of
percentages reported to the progress callback is monotonically
non-decreasing and every reported percentage lies in 0..100. -/
theorem c10_progress_monotone_bounded (w : World) (dry : Bool) (cfg : InstallConfig) :
    List.Chain' (· ≤ ·) (percents (runInstallM w dry cfg t0).2) ∧
    ∀ p ∈ percents (runInstallM w dry cfg t0).2, 0 ≤ p ∧ p ≤ 100 := by
  have h := runInstall_hoare w dry cfg t0 evOK_t0
  rcases hm : runInstallM w dry cfg t0 with ⟨r, t'⟩
  cases r with
  | ok a =>
    have hq := h.1 a t' hm
    exact ⟨hq.1.1, fun p hp => ⟨Nat.zero_le p, hq.1.2 p hp⟩⟩
  | error e =>
    have hq := h.2 e t' hm
    exact ⟨hq.1, fun p hp => ⟨Nat.zero_le p, hq.2 p hp⟩⟩

/-- C2: for every world and configuration whose resolved native package
list is empty, `run_install` raises (it never returns normally), never
reports the 90% bootloader step (so the bootloader and finalize steps
are unreachable), never issues a chroot `flatpak` command (so neither
explicitly listed flatpak apps nor bundle apps are installed), and if the
88% "Installing optional software" report was emitted, the raised
exception is exactly the unbound-local `flatpaks` NameError of
installer.py line 458. -/
theorem c2_empty_pkgs_name_error (w : World) (dry : Bool) (cfg : InstallConfig)
    (hpkgs : archPackagesForSelection (selectionFromConfig cfg) = []) :
    (∀ u : Unit, (runInstallM w dry cfg t0).1 ≠ Except.ok u) ∧
    90 ∉ percents (runInstallM w dry cfg t0).2 ∧
    NoFlatpakCmd (runInstallM w dry cfg t0).2.issued ∧
    (88 ∈ percents (runInstallM w dry cfg t0).2 →
      (runInstallM w dry cfg t0).1 = Except.error (PyError.nameError "flatpaks")) := by
  have h := runInstall_noPkgs w dry cfg hpkgs t0 preSW_t0
  rcases hm : runInstallM w dry cfg t0 with ⟨r, t'⟩
  cases r with
  | ok a => exact absurd (h.1 a t' hm) not_false
  | error e =>
    have hE := h.2 e t' hm
    refine ⟨fun u hu => by simp at hu, hE.1.1, hE.1.2, fun hmem => ?_⟩
    simp only [hE.2 hmem]

/-- C1 (divergence evidence): the exact spec scenario — erase-disk
install of `/dev/sda` on a simulated UEFI host, dry-run, no software
selected, no explicit flatpak apps — reports exactly
5,15,25,45,60,75,80,82,84,85,88 and then raises the unbound-local
`flatpaks` NameError instead of continuing to 90,95,(100, "Done");
the only subprocesses actually spawned are the read-only `blkid`
probes of the fstab builder (every destructive command is only
logged as a dry-run simulation). -/
theorem c1_dry_run_scenario :
    (runInstallM wDry true cfgErase t0).2.events
        = [(5, "Partitioning disk"), (15, "Formatting partitions"),
           (25, "Mounting target"), (45, "Copying system files"),
           (60, "Writing fstab"), (75, "Preparing chroot"),
           (80, "Configuring system"), (82, "Configuring locale"),
           (84, "Configuring network"), (85, "Creating user"),
           (88, "Installing optional software")] ∧
    (runInstallM wDry true cfgErase t0).1
        = Except.error (PyError.nameError "flatpaks") ∧
    (∀ args ∈ (runInstallM wDry true cfgErase t0).2.executed,
       args.headD "" = "blkid") := by
  decide

/-- C2 witness: the concrete scenario of C1 satisfies the hypothesis of
`c2_empty_pkgs_name_error` (its resolved native package list is empty)
and hence its conclusion. -/
theorem c2_empty_pkgs_name_error_witness :
    archPackagesForSelection (selectionFromConfig cfgErase) = [] ∧
    ((∀ u : Unit, (runInstallM wDry true cfgErase t0).1 ≠ Except.ok u) ∧
     90 ∉ percents (runInstallM wDry true cfgErase t0).2 ∧
     NoFlatpakCmd (runInstallM wDry true cfgErase t0).2.issued ∧
     (88 ∈ percents (runInstallM wDry true cfgErase t0).2 →
       (runInstallM wDry true cfgErase t0).1
         = Except.error (PyError.nameError "flatpaks"))) :=
  ⟨by decide, c2_empty_pkgs_name_error wDry true cfgErase (by decide)⟩

/-- C9: if validation passes, the process is not superuser and the
executor is not in dry-run mode, `run_install` fails with the
`PermissionError` immediately and the effect trace is completely
unchanged — no command is issued and no step is reported. -/
theorem c9_permission_guard (w : World) (cfg : InstallConfig) (t : Trace)
    (hval : validateReady w cfg = Except.ok ()) (heuid : w.euid ≠ 0) :
    runInstallM w false cfg t =
      (Except.error (PyError.permissionError
        "Installer must be run as root (or use --dry-run)"), t) := by
  unfold runInstallM
  rw [hval]
  have hc : (w.euid != 0 && !false) = true := by simp [heuid]
  rw [hc]
  simp [mbind, mOfExcept, mthrow]

/-- C9 witness: the erase configuration validates, `wNonRoot` is not
superuser, and the non-dry-run call fails immediately with the
`PermissionError`, leaving the trace untouched. -/
theorem c9_permission_guard_witness :
    validateReady wNonRoot cfgErase = Except.ok () ∧
    wNonRoot.euid ≠ 0 ∧
    runInstallM wNonRoot false cfgErase t0 =
      (Except.error (PyError.permissionError
        "Installer must be run as root (or use --dry-run)"), t0) :=
  ⟨by decide, by decide,
   c9_permission_guard wNonRoot cfgErase t0 (by decide) (by decide)⟩

end Vistula

namespace Vistula

/-! ### Value lemmas for the fstab builder -/

theorem mbind_fst_ok {α β : Type} {m : M α} {f : α → M β} {v : α}
    (hm : ∀ t, (m t).1 = Except.ok v) (t : Trace) :
    mbind m f t = f v (m t).2 := by
  rcases h : m t with ⟨r, t2⟩
  have hv := hm t
  rw [h] at hv
  simp only at hv
  subst hv
  simp [mbind, h]

theorem mbind_mpure {α β : Type} (a : α) (f : α → M β) (t : Trace) :
    mbind (mpure a) f t = f a t := rfl

theorem mbind_assoc {α β γ : Type} (m : M α) (g : α → M β) (f : β → M γ)
    (t : Trace) :
    mbind (mbind m g) f t = mbind m (fun a => mbind (g a) f) t := by
  rcases h : m t with ⟨r, tm⟩
  cases r <;> simp [mbind, h]

theorem exeRun_noCheck_allow (w : World) (dry : Bool) (args : List String)
    (inp : Option String) (t : Trace) :
    exeRun w dry args false none true inp t
      = (Except.ok (w.exec args none inp),
         ⟨t.events, t.executed ++ [args], t.issued ++ [args],
          t.logs ++ ["$ " ++ quotedCmd args], t.fs⟩) := by
  rcases t with ⟨ev, ex, is, lg, fs⟩
  simp [exeRun]

theorem blkidExportM_fst (w : World) (dry : Bool) (dev : String) (t : Trace) :
    (blkidExportM w dry dev t).1 = Except.ok (blkidDict w dev) := by
  unfold blkidExportM
  rw [mbind_fst_ok (fun t' => by rw [exeRun_noCheck_allow]) t]
  unfold blkidDict
  split_ifs with h <;> simp [mpure, h]

theorem mbind_blkidExportM {β : Type} (w : World) (dry : Bool) (dev : String)
    (f : List (String × String) → M β) (t : Trace) :
    mbind (blkidExportM w dry dev) f t
      = f (blkidDict w dev) ((blkidExportM w dry dev t).2) :=
  mbind_fst_ok (blkidExportM_fst w dry dev) t

theorem fstypeM_fst (w : World) (dry : Bool) (dev fb : String) (t : Trace) :
    (fstypeM w dry dev fb t).1 = Except.ok (fstypeOf w dev fb) := by
  unfold fstypeM fstypeOf
  rw [mbind_blkidExportM]
  split_ifs with h <;> simp [mpure, h]

theorem mbind_fstypeM {β : Type} (w : World) (dry : Bool) (dev fb : String)
    (f : String → M β) (t : Trace) :
    mbind (fstypeM w dry dev fb) f t
      = f (fstypeOf w dev fb) ((fstypeM w dry dev fb t).2) :=
  mbind_fst_ok (fstypeM_fst w dry dev fb) t

theorem fstabIdentM_fst (w : World) (dry : Bool) (dev : String) (t : Trace) :
    (fstabIdentM w dry dev t).1 = Except.ok (fstabIdent w dev) := by
  unfold fstabIdentM fstabIdent
  rw [mbind_blkidExportM]
  split_ifs <;> simp_all [mpure]

theorem mbind_fstabIdentM {β : Type} (w : World) (dry : Bool) (dev : String)
    (f : Option (String × String) → M β) (t : Trace) :
    mbind (fstabIdentM w dry dev) f t
      = f (fstabIdent w dev) ((fstabIdentM w dry dev t).2) :=
  mbind_fst_ok (fstabIdentM_fst w dry dev) t

theorem devrefM_fst (w : World) (dry : Bool) (dev : String) (t : Trace) :
    (devrefM w dry dev t).1 = Except.ok (devrefVal w dev) := by
  unfold devrefM devrefVal
  rw [mbind_fstabIdentM]
  cases fstabIdent w dev <;> simp [mCaseOpt, mpure, Option.elim]

theorem mbind_devrefM {β : Type} (w : World) (dry : Bool) (dev : String)
    (f : String → M β) (t : Trace) :
    mbind (devrefM w dry dev) f t
      = f (devrefVal w dev) ((devrefM w dry dev t).2) :=
  mbind_fst_ok (devrefM_fst w dry dev) t

/-- C3: for every world, dry-run flag and partition choice, the fstab
builder returns (without raising) exactly the mount table the spec
describes — one line per provided partition in root/efi/home/swap order,
with the stated formats and fstype fallbacks; the device reference
prefers `PARTUUID`, then `UUID`, then the raw path; and in the spec's
concrete stub scenario it produces exactly the two stated lines. -/
theorem c3_fstab_content (w : World) (dry : Bool) (root : String)
    (efi home swap : Option String) (t : Trace) :
    ((buildFstabContentM w dry root efi home swap t).1
       = Except.ok (specMountTable (fstabIdent w) (fstypeOf w) root efi home swap)) ∧
    (∀ dev : String,
       (dictGet (blkidDict w dev) "PARTUUID" ≠ "" →
          fstabIdent w dev = some ("PARTUUID", dictGet (blkidDict w dev) "PARTUUID")) ∧
       (dictGet (blkidDict w dev) "PARTUUID" = "" →
          dictGet (blkidDict w dev) "UUID" ≠ "" →
          fstabIdent w dev = some ("UUID", dictGet (blkidDict w dev) "UUID")) ∧
       (dictGet (blkidDict w dev) "PARTUUID" = "" →
          dictGet (blkidDict w dev) "UUID" = "" →
          fstabIdent w dev = none)) ∧
    ((buildFstabContentM wBlkid true "/dev/sda2" (some "/dev/sda1") none none t0).1
       = Except.ok "PARTUUID=ABCD / ext4 defaults 0 1\n/dev/sda1 /boot/efi vfat umask=0077 0 1\n") := by
  refine ⟨?_, ?_, by decide⟩
  · cases efi <;> cases home <;> cases swap <;>
      simp [buildFstabContentM, mCaseOpt, mbind_assoc, mbind_mpure,
            mbind_fstypeM, mbind_devrefM, mpure, specMountTable, devrefVal]
  · intro dev
    refine ⟨fun h1 => ?_, fun h1 h2 => ?_, fun h1 h2 => ?_⟩
    · simp [fstabIdent, h1]
    · simp [fstabIdent, h1, h2]
    · simp [fstabIdent, h1, h2]

/-- C3 witness: the resolution-preference clauses discharged at the
stub world of the concrete example. -/
theorem c3_fstab_content_witness :
    dictGet (blkidDict wBlkid "/dev/sda2") "PARTUUID" ≠ "" ∧
    fstabIdent wBlkid "/dev/sda2"
      = some ("PARTUUID", dictGet (blkidDict wBlkid "/dev/sda2") "PARTUUID") ∧
    dictGet (blkidDict wBlkid "/dev/sda1") "PARTUUID" = "" ∧
    dictGet (blkidDict wBlkid "/dev/sda1") "UUID" = "" ∧
    fstabIdent wBlkid "/dev/sda1" = none :=
  ⟨by decide,
   ((c3_fstab_content wBlkid true "/dev/sda2" none none none t0).2.1 "/dev/sda2").1 (by decide),
   by decide, by decide,
   ((c3_fstab_content wBlkid true "/dev/sda1" none none none t0).2.1 "/dev/sda1").2.2
     (by decide) (by decide)⟩

end Vistula

namespace Vistula

/-- C4: in dry-run mode with `allow_in_dry_run` false the executor
spawns nothing and returns the synthetic success result (return code 0,
empty streams) after logging the quoted command line; with
`allow_in_dry_run` true it spawns the real process even in dry-run
mode. -/
theorem c4_dry_run_execution (w : World) (args : List String) (check : Bool)
    (cwd inp : Option String) (t : Trace) :
    (exeRun w true args check cwd false inp t
       = (Except.ok ⟨0, "", ""⟩,
          ⟨t.events, t.executed, t.issued ++ [args],
           t.logs ++ ["[DRY-RUN] " ++ quotedCmd args], t.fs⟩)) ∧
    (exeRun w true args check cwd true inp t).2.executed
       = t.executed ++ [args] := by
  rcases t with ⟨ev, ex, is, lg, fs⟩
  constructor
  · simp [exeRun]
  · simp only [exeRun, Bool.not_true, Bool.and_false, Bool.false_eq_true,
      if_false]
    split <;> rfl

/-- C5 counterexample: with `check=true` and return code 1, two worlds
whose commands differ only in the captured stderr (`"A"` vs `"B"`) make
`run` raise EQUAL exception values, so the raised exception cannot carry
the captured stderr (nor, symmetrically, stdout): the source raises a
plain `RuntimeError` whose message holds only the return code and the
quoted command line, refuting the claim that the raised failure carries
both captured streams. -/
theorem c5_streams_not_carried :
    (exeRun wErrA false ["wipefs", "-a", "/dev/sda"] true none false none t0).1
      = (exeRun wErrB false ["wipefs", "-a", "/dev/sda"] true none false none t0).1 ∧
    (wErrA.exec ["wipefs", "-a", "/dev/sda"] none none).stderr
      ≠ (wErrB.exec ["wipefs", "-a", "/dev/sda"] none none).stderr ∧
    (exeRun wErrA false ["wipefs", "-a", "/dev/sda"] true none false none t0).1
      = Except.error (PyError.runtimeError "Command failed (1): wipefs -a /dev/sda") := by
  refine ⟨by decide, by decide, by decide⟩

/-- C5 amended: on a real (non-dry-run) execution with `check=true` and
a non-zero return code, `run` raises a `RuntimeError` whose message
carries the return code and the shell-quoted argv (stdout and stderr are
only logged, not carried on the exception); with `check=false`, `run`
never raises and returns the result — the real one, or the synthetic
success when the command was dry-run simulated — for the caller to
inspect. -/
theorem c5_check_semantics (w : World) (args : List String)
    (cwd inp : Option String) (t : Trace) :
    ((w.exec args cwd inp).returncode ≠ 0 →
       exeRun w false args true cwd false inp t
         = (Except.error (PyError.runtimeError
             ("Command failed (" ++ toString (w.exec args cwd inp).returncode
               ++ "): " ++ quotedCmd args)),
            ⟨t.events, t.executed ++ [args], t.issued ++ [args],
             t.logs ++ ["$ " ++ quotedCmd args], t.fs⟩)) ∧
    (∀ dry allow : Bool,
       (exeRun w dry args false cwd allow inp t).1
         = Except.ok (if dry && !allow then ⟨0, "", ""⟩
                      else w.exec args cwd inp)) := by
  rcases t with ⟨ev, ex, is, lg, fs⟩
  constructor
  · intro hrc
    simp [exeRun, hrc]
  · intro dry allow
    by_cases h : (dry && !allow) = true
    · simp [exeRun, h]
    · simp [exeRun, h]

/-- C5 amended witness: at `wErrA` the checked run raises the message-
carrying `RuntimeError`, and an unchecked run returns the non-zero
result for inspection. -/
theorem c5_check_semantics_witness :
    (wErrA.exec ["wipefs", "-a", "/dev/sda"] none none).returncode ≠ 0 ∧
    exeRun wErrA false ["wipefs", "-a", "/dev/sda"] true none false none t0
      = (Except.error (PyError.runtimeError
          ("Command failed ("
            ++ toString (wErrA.exec ["wipefs", "-a", "/dev/sda"] none none).returncode
            ++ "): " ++ quotedCmd ["wipefs", "-a", "/dev/sda"])),
         ⟨t0.events, t0.executed ++ [["wipefs", "-a", "/dev/sda"]],
          t0.issued ++ [["wipefs", "-a", "/dev/sda"]],
          t0.logs ++ ["$ " ++ quotedCmd ["wipefs", "-a", "/dev/sda"]], t0.fs⟩) ∧
    (exeRun wErrA false ["wipefs", "-a", "/dev/sda"] false none false none t0).1
      = Except.ok (if false && !false then ⟨0, "", ""⟩
                   else wErrA.exec ["wipefs", "-a", "/dev/sda"] none none) :=
  ⟨by decide,
   (c5_check_semantics wErrA ["wipefs", "-a", "/dev/sda"] none none t0).1 (by decide),
   (c5_check_semantics wErrA ["wipefs", "-a", "/dev/sda"] none none t0).2 false false⟩

/-- C6: `validate_ready` raises a `ValueError` when the target disk is
unset (None or empty), when erase-disk mode is off and the root
partition is empty, when erase-disk mode is off with UEFI firmware
present and no EFI partition chosen, and when no password is set; it
returns normally for a fully populated manual configuration. -/
theorem c6_validate_ready (w : World) :
    (∀ cfg : InstallConfig, cfg.target_disk.getD "" = "" →
       validateReady w cfg
         = Except.error (PyError.valueError "No target disk selected")) ∧
    (∀ cfg : InstallConfig, cfg.erase_disk = false → cfg.root_partition = "" →
       ∃ msg, validateReady w cfg = Except.error (PyError.valueError msg)) ∧
    (∀ cfg : InstallConfig, cfg.erase_disk = false →
       w.fileExists "/sys/firmware/efi" = true → cfg.efi_partition = "" →
       ∃ msg, validateReady w cfg = Except.error (PyError.valueError msg)) ∧
    (∀ cfg : InstallConfig, cfg.password = "" →
       ∃ msg, validateReady w cfg = Except.error (PyError.valueError msg)) ∧
    (∀ cfg : InstallConfig, cfg.target_disk.getD "" ≠ "" →
       cfg.erase_disk = false → cfg.root_partition ≠ "" →
       cfg.efi_partition ≠ "" → cfg.password ≠ "" →
       validateReady w cfg = Except.ok ()) := by
  refine ⟨?_, ?_, ?_, ?_, ?_⟩
  · intro cfg h
    unfold validateReady
    rw [if_pos h]
  · intro cfg he hr
    unfold validateReady
    split_ifs with h1 h2 h3 h4
    · exact ⟨_, rfl⟩
    · exact ⟨_, rfl⟩
    · exact ⟨_, rfl⟩
    · exact ⟨_, rfl⟩
    · exact absurd (by simp [he, hr]) h2
  · intro cfg he hf hefi
    unfold validateReady
    split_ifs with h1 h2 h3 h4
    · exact ⟨_, rfl⟩
    · exact ⟨_, rfl⟩
    · exact ⟨_, rfl⟩
    · exact ⟨_, rfl⟩
    · exact absurd (by simp [he, hf, hefi]) h3
  · intro cfg hp
    -- split_ifs discharges the password test itself with `hp`
    unfold validateReady
    split_ifs with h1 h2 h3
    · exact ⟨_, rfl⟩
    · exact ⟨_, rfl⟩
    · exact ⟨_, rfl⟩
    · exact ⟨_, rfl⟩
  · intro cfg h1 h2 h3 h4 h5
    unfold validateReady
    rw [if_neg h1, if_neg (by simp [h2, h3]), if_neg (by simp [h2, h4]),
        if_neg h5]

/-- C6 witness: each validation clause discharged at a concrete
configuration against the simulated-UEFI world. -/
theorem c6_validate_ready_witness :
    (validateReady wDry cfgBase
       = Except.error (PyError.valueError "No target disk selected")) ∧
    (∃ msg, validateReady wDry { cfgManualFull with root_partition := "" }
       = Except.error (PyError.valueError msg)) ∧
    (∃ msg, validateReady wDry { cfgManualFull with efi_partition := "" }
       = Except.error (PyError.valueError msg)) ∧
    (∃ msg, validateReady wDry { cfgManualFull with password := "" }
       = Except.error (PyError.valueError msg)) ∧
    validateReady wDry cfgManualFull = Except.ok () :=
  ⟨(c6_validate_ready wDry).1 cfgBase (by decide),
   (c6_validate_ready wDry).2.1 { cfgManualFull with root_partition := "" }
     (by decide) (by decide),
   (c6_validate_ready wDry).2.2.1 { cfgManualFull with efi_partition := "" }
     (by decide) (by decide) (by decide),
   (c6_validate_ready wDry).2.2.2.1 { cfgManualFull with password := "" }
     (by decide),
   (c6_validate_ready wDry).2.2.2.2 cfgManualFull (by decide) (by decide)
     (by decide) (by decide) (by decide)⟩

/-- C7: the derived partition device name is `<disk>pN` when the disk
path contains `nvme` or `mmcblk` and `<disk>N` otherwise; the erase-disk
flow of the engine predicts its EFI and root partition names by this
same rule (indices 1 and 2); concrete examples as in the spec. -/
theorem c7_partition_naming :
    (∀ (disk : String) (n : Nat),
       derivePartitionName disk n
         = if strContains disk "nvme" || strContains disk "mmcblk"
           then disk ++ "p" ++ toString n
           else disk ++ toString n) ∧
    (∀ disk : String,
       erasePartDevs disk
         = (derivePartitionName disk 1, derivePartitionName disk 2)) ∧
    derivePartitionName "/dev/sda" 1 = "/dev/sda1" ∧
    derivePartitionName "/dev/nvme0n1" 2 = "/dev/nvme0n1p2" := by
  refine ⟨?_, ?_, by decide, by decide⟩
  · intro disk n
    unfold derivePartitionName diskPfx
    split
    · rw [String.append_assoc]
    · rfl
  · intro disk
    unfold erasePartDevs derivePartitionName diskPfx
    by_cases h : (strContains disk "nvme" || strContains disk "mmcblk") = true
    · rw [if_pos h, if_pos h]
      rw [String.append_assoc, String.append_assoc]
      rfl
    · rw [if_neg h, if_neg h]
      rfl

end Vistula

namespace Vistula

/-! ### Deduplication lemmas -/

theorem dedupFirst_not_mem_seen :
    ∀ (xs seen : List String) (a : String), a ∈ dedupFirst seen xs → a ∉ seen
  | [], seen, a, h => by simp [dedupFirst] at h
  | x :: xs, seen, a, h => by
    unfold dedupFirst at h
    by_cases hx : x ∈ seen
    · rw [if_pos hx] at h
      exact dedupFirst_not_mem_seen xs seen a h
    · rw [if_neg hx] at h
      rcases List.mem_cons.mp h with rfl | h2
      · exact hx
      · intro hseen
        exact dedupFirst_not_mem_seen xs (x :: seen) a h2
          (List.mem_cons_of_mem x hseen)

theorem dedupFirst_nodup : ∀ (xs seen : List String), (dedupFirst seen xs).Nodup
  | [], seen => by simp [dedupFirst]
  | x :: xs, seen => by
    unfold dedupFirst
    by_cases hx : x ∈ seen
    · rw [if_pos hx]
      exact dedupFirst_nodup xs seen
    · rw [if_neg hx]
      refine List.nodup_cons.mpr ⟨?_, dedupFirst_nodup xs (x :: seen)⟩
      intro hmem
      exact dedupFirst_not_mem_seen xs (x :: seen) x hmem
        (List.mem_cons_self x seen)

/-- C8: the two planner functions are pure and deterministic, their
outputs contain no duplicate identifiers (first-occurrence order is kept
by `dedupFirst`), and no bundle sub-flag contributes anything unless its
parent bundle flag is set: clearing every sub-flag whose parent is unset
leaves both outputs unchanged. -/
theorem c8_software_planner :
    (∀ s u : SoftwareSelection, s = u →
       archPackagesForSelection s = archPackagesForSelection u ∧
       flatpakAppidsForSelection s = flatpakAppidsForSelection u) ∧
    (∀ s : SoftwareSelection,
       (archPackagesForSelection s).Nodup ∧
       (flatpakAppidsForSelection s).Nodup) ∧
    (∀ s : SoftwareSelection,
       archPackagesForSelection s
         = archPackagesForSelection (clearOrphanFlags s) ∧
       flatpakAppidsForSelection s
         = flatpakAppidsForSelection (clearOrphanFlags s)) := by
  refine ⟨fun s u h => by rw [h]; exact ⟨rfl, rfl⟩,
          fun s => ⟨dedupFirst_nodup _ _, dedupFirst_nodup _ _⟩,
          fun s => ⟨?_, ?_⟩⟩
  · rcases s with ⟨g, c, a, d, nv, gs, gl, gw, gm, gg, cg, ci, cb, ck, ca,
      al, an, dg, db, dp, dn, dv⟩
    cases g <;> cases d <;>
      simp [archPackagesForSelection, clearOrphanFlags]
  · rcases s with ⟨g, c, a, d, nv, gs, gl, gw, gm, gg, cg, ci, cb, ck, ca,
      al, an, dg, db, dp, dn, dv⟩
    cases g <;> cases c <;> cases a <;> cases d <;>
      simp [flatpakAppidsForSelection, clearOrphanFlags]

/-- C8 witness: the determinism clause discharged at the selection of
the concrete erase configuration. -/
theorem c8_software_planner_witness :
    selectionFromConfig cfgErase = selectionFromConfig cfgErase ∧
    (archPackagesForSelection (selectionFromConfig cfgErase)
       = archPackagesForSelection (selectionFromConfig cfgErase) ∧
     flatpakAppidsForSelection (selectionFromConfig cfgErase)
       = flatpakAppidsForSelection (selectionFromConfig cfgErase)) :=
  ⟨rfl, c8_software_planner.1 (selectionFromConfig cfgErase)
          (selectionFromConfig cfgErase) rfl⟩

end Vistula
